import Mathlib

/-!
# Mode-switch coordinator and joint limiter of ros_canopen

A shallow embedding of
* `canopen_motor_node/src/robot_layer.cpp` (HandleLayer, RobotLayer), and
* `joint_limits_controller/include/joint_limits_controller/joint_limiter.h`
  (DataStore, JointLimiter and its position / velocity / effort variants).

Conventions of the embedding
* `double` values are carried as `Int`; only equality, copying and order are used.
* A `boost::shared_ptr<HandleLayer>` is an address (`HandlePtr`); the objects the
  pointers refer to live in `RobotLayer.heap`.
* The calls a HandleLayer makes on its actuator are recorded in `MotorBase.calls`.
* The lists handed to `stopControllers` are recorded in `RobotLayer.stop_requests`.
-/

namespace canopen

/-! ## Actuator interface -/

/-- Modelled from the spec: the drive modes of `MotorBase::OperationMode`
(declared in canopen_402, not part of the two source files). The source casts the
integer parameter `required_drive_mode` to this enumeration, so a mode is any integer. -/
abbrev OperationMode := Int

/-- Modelled from the spec: the distinguished idle mode `MotorBase::No_Mode`. -/
def No_Mode : OperationMode := 0
/-- Modelled from the spec: `MotorBase::Profiled_Position`. -/
def Profiled_Position : OperationMode := 1
/-- Modelled from the spec: `MotorBase::Velocity`. -/
def Velocity : OperationMode := 2
/-- Modelled from the spec: `MotorBase::Profiled_Velocity`. -/
def Profiled_Velocity : OperationMode := 3
/-- Modelled from the spec: `MotorBase::Profiled_Torque`. -/
def Profiled_Torque : OperationMode := 4
/-- Modelled from the spec: `MotorBase::Homing`, a drive mode no command handle is registered for. -/
def Homing : OperationMode := 6
/-- Modelled from the spec: `MotorBase::Interpolated_Position`. -/
def Interpolated_Position : OperationMode := 7
/-- Modelled from the spec: `MotorBase::Cyclic_Synchronous_Position`. -/
def Cyclic_Synchronous_Position : OperationMode := 8
/-- Modelled from the spec: `MotorBase::Cyclic_Synchronous_Velocity`. -/
def Cyclic_Synchronous_Velocity : OperationMode := 9
/-- Modelled from the spec: `MotorBase::Cyclic_Synchronous_Torque`. -/
def Cyclic_Synchronous_Torque : OperationMode := 10

/-- Modelled from the spec: the lifecycle states of a layer (`Layer::LayerState`,
declared in canopen_master), in increasing order; the actuator is operational-ready
in `Ready`. -/
inductive LayerState where
  | Off | Init | Shutdown | Error | Halt | Recover | Ready
  deriving DecidableEq

/-- The calls a HandleLayer issues on its actuator. -/
inductive MotorCall where
  | enterModeAndWait (m : OperationMode)
  | halt
  | setTarget (target : Int)
  deriving DecidableEq

/-- Modelled from the spec: the actuator handle `MotorBase` (section 6 of the spec:
is_mode_supported, get_mode, get_operational_state, enter_mode_and_wait, halt).
* `supported_modes`: the modes `isModeSupported` answers true for;
* `mode`: what `getMode` returns;
* `layer_state`: what `getLayerState` returns;
* `rejected_modes`: the modes whose entry the actuator rejects or times out on;
* `mode_after_reject`: the mode the actuator reports after a rejected entry
  (`none`: the mode it had before);
* `calls`: the calls received so far, oldest first. -/
structure MotorBase where
  supported_modes : List OperationMode
  mode : OperationMode
  layer_state : LayerState
  rejected_modes : List OperationMode
  mode_after_reject : Option OperationMode
  calls : List MotorCall
  deriving DecidableEq

/-- Modelled from the spec: `is_mode_supported(mode) -> bool`. -/
def MotorBase.isModeSupported (mo : MotorBase) (m : OperationMode) : Bool :=
  decide (m ∈ mo.supported_modes)

/-- Modelled from the spec: `get_mode() -> mode`. -/
def MotorBase.getMode (mo : MotorBase) : OperationMode := mo.mode

/-- Modelled from the spec: `get_operational_state()`. -/
def MotorBase.getLayerState (mo : MotorBase) : LayerState := mo.layer_state

/-- Modelled from the spec: `enter_mode_and_wait(mode) -> bool`. An accepted entry
leaves the actuator in the requested mode and returns true; a rejected entry
returns false. -/
def MotorBase.enterModeAndWait (mo : MotorBase) (m : OperationMode) : Bool × MotorBase :=
  if m ∈ mo.rejected_modes then
    (false, { mo with mode := mo.mode_after_reject.getD mo.mode,
                      calls := mo.calls ++ [MotorCall.enterModeAndWait m] })
  else
    (true, { mo with mode := m, calls := mo.calls ++ [MotorCall.enterModeAndWait m] })

/-- Modelled from the spec: `halt() -> void`; the call is recorded, the reaction of the
drive is not part of the source. -/
def MotorBase.halt (mo : MotorBase) : MotorBase :=
  { mo with calls := mo.calls ++ [MotorCall.halt] }

/-- Modelled from the spec: the call `setTarget` of the actuator handle, by which the
cyclic write hands a target to the drive; the call is recorded. -/
def MotorBase.setTarget (mo : MotorBase) (target : Int) : MotorBase :=
  { mo with calls := mo.calls ++ [MotorCall.setTarget target] }

/-! ## Limits (joint_limiter.h) -/

/-- The class `JointLimiter::Limits`: the flag word, the soft-limit flag and the values of
`joint_limits_interface::JointLimits` and `SoftJointLimits`. -/
structure Limits where
  limits_flags : Nat
  has_soft_limits : Bool
  min_position : Int
  max_position : Int
  max_velocity : Int
  max_acceleration : Int
  max_jerk : Int
  max_effort : Int
  soft_k_position : Int
  soft_min_position : Int
  soft_max_position : Int
  soft_k_velocity : Int
  deriving DecidableEq

namespace Limits

def PositionLimitsConfigured : Nat := 1 <<< 0
def VelocityLimitsConfigured : Nat := 1 <<< 1
def AccelerationLimitsConfigured : Nat := 1 <<< 2
def JerkLimitsConfigured : Nat := 1 <<< 3
def EffortLimitsConfigured : Nat := 1 <<< 4
def SoftLimitsConfigured : Nat := 1 <<< 5

/-- The default constructor `Limits() : limits_flags(0), has_soft_limits(false)`;
the value members are default-constructed (zero). -/
def empty : Limits :=
  { limits_flags := 0, has_soft_limits := false,
    min_position := 0, max_position := 0, max_velocity := 0, max_acceleration := 0,
    max_jerk := 0, max_effort := 0,
    soft_k_position := 0, soft_min_position := 0, soft_max_position := 0, soft_k_velocity := 0 }

/-- Modelled from the spec: the body of `hasPositionLimits` is not in the header; a field is
meaningful when its flag is in the configured set. -/
def hasPositionLimits (l : Limits) : Bool := l.limits_flags &&& PositionLimitsConfigured != 0
/-- Modelled from the spec: `hasVelocityLimits`, see `hasPositionLimits`. -/
def hasVelocityLimits (l : Limits) : Bool := l.limits_flags &&& VelocityLimitsConfigured != 0
/-- Modelled from the spec: `hasAccelerationLimits`, see `hasPositionLimits`. -/
def hasAccelerationLimits (l : Limits) : Bool := l.limits_flags &&& AccelerationLimitsConfigured != 0
/-- Modelled from the spec: `hasJerkLimits`, see `hasPositionLimits`. -/
def hasJerkLimits (l : Limits) : Bool := l.limits_flags &&& JerkLimitsConfigured != 0
/-- Modelled from the spec: `hasEffortLimits`, see `hasPositionLimits`. -/
def hasEffortLimits (l : Limits) : Bool := l.limits_flags &&& EffortLimitsConfigured != 0
/-- Modelled from the spec: `hasSoftLimits`, see `hasPositionLimits`. -/
def hasSoftLimits (l : Limits) : Bool := l.limits_flags &&& SoftLimitsConfigured != 0

/-- Modelled from the spec: the tighter upper bound of `merge`: present in both operands, the smaller one
wins; present in one operand only, it is carried through. -/
def mergeMax (hasSelf hasOther : Bool) (self other : Int) : Int :=
  if hasOther then (if hasSelf then min self other else other) else self

/-- Modelled from the spec: the tighter lower bound of `merge`, the dual of `mergeMax`. -/
def mergeMin (hasSelf hasOther : Bool) (self other : Int) : Int :=
  if hasOther then (if hasSelf then max self other else other) else self

/-- Modelled from the spec: `Limits::merge` is declared in the header, its body is missing.
Section 3: intersection semantics, for each field present in either operand the tighter
bound wins (smaller max, larger min, smaller magnitude bound), a field present in only one
operand is carried through unchanged, flags are unioned. The spec gives no rule for the
soft-limit gains when both operands configure them; the gains of the left operand stay. -/
def merge (self other : Limits) : Limits :=
  { limits_flags := self.limits_flags ||| other.limits_flags
    has_soft_limits := self.has_soft_limits || other.has_soft_limits
    min_position := mergeMin self.hasPositionLimits other.hasPositionLimits
      self.min_position other.min_position
    max_position := mergeMax self.hasPositionLimits other.hasPositionLimits
      self.max_position other.max_position
    max_velocity := mergeMax self.hasVelocityLimits other.hasVelocityLimits
      self.max_velocity other.max_velocity
    max_acceleration := mergeMax self.hasAccelerationLimits other.hasAccelerationLimits
      self.max_acceleration other.max_acceleration
    max_jerk := mergeMax self.hasJerkLimits other.hasJerkLimits self.max_jerk other.max_jerk
    max_effort := mergeMax self.hasEffortLimits other.hasEffortLimits
      self.max_effort other.max_effort
    soft_k_position := if other.hasSoftLimits && !self.hasSoftLimits
      then other.soft_k_position else self.soft_k_position
    soft_min_position := mergeMin self.hasSoftLimits other.hasSoftLimits
      self.soft_min_position other.soft_min_position
    soft_max_position := mergeMax self.hasSoftLimits other.hasSoftLimits
      self.soft_max_position other.soft_max_position
    soft_k_velocity := if other.hasSoftLimits && !self.hasSoftLimits
      then other.soft_k_velocity else self.soft_k_velocity }

/-- Modelled from the spec: `Limits::apply` is declared in the header, its body is missing.
Section 3: layering semantics, any field present in the override replaces the field of the
base outright, fields absent in the override are inherited. -/
def apply (self other : Limits) : Limits :=
  { limits_flags := self.limits_flags ||| other.limits_flags
    has_soft_limits := self.has_soft_limits || other.has_soft_limits
    min_position := if other.hasPositionLimits then other.min_position else self.min_position
    max_position := if other.hasPositionLimits then other.max_position else self.max_position
    max_velocity := if other.hasVelocityLimits then other.max_velocity else self.max_velocity
    max_acceleration :=
      if other.hasAccelerationLimits then other.max_acceleration else self.max_acceleration
    max_jerk := if other.hasJerkLimits then other.max_jerk else self.max_jerk
    max_effort := if other.hasEffortLimits then other.max_effort else self.max_effort
    soft_k_position := if other.hasSoftLimits then other.soft_k_position else self.soft_k_position
    soft_min_position :=
      if other.hasSoftLimits then other.soft_min_position else self.soft_min_position
    soft_max_position :=
      if other.hasSoftLimits then other.soft_max_position else self.soft_max_position
    soft_k_velocity := if other.hasSoftLimits then other.soft_k_velocity else self.soft_k_velocity }

/-- The constructor `Limits(const Limits& base, const Limits& other) { *this = base; merge(other); }`. -/
def mk2 (base other : Limits) : Limits := base.merge other

end Limits

/-! ## DataStore and the limiters (joint_limiter.h) -/

/-- The class template `DataStore<T>`. -/
structure DataStore (T : Type) where
  has_data_ : Bool
  data_ : T
  deriving DecidableEq

namespace DataStore

/-- The member `bool get(T &data)`: the flag, and the value left in `data`. -/
def get {T : Type} (s : DataStore T) (data : T) : Bool × T :=
  (s.has_data_, if s.has_data_ then s.data_ else data)

/-- The member `void set(const T &data)`. -/
def set {T : Type} (s : DataStore T) (data : T) : DataStore T :=
  { s with data_ := data, has_data_ := true }

/-- The member `void reset()`. -/
def reset {T : Type} (s : DataStore T) : DataStore T :=
  { s with has_data_ := false }

end DataStore

/-- The data of the base class `JointLimiter`. -/
structure JointLimiter where
  last_command_ : DataStore Int
  deriving DecidableEq

/-- The body of `JointLimiter::recover`: `last_command_.reset()`. -/
def JointLimiter.recover (l : JointLimiter) : JointLimiter :=
  { l with last_command_ := l.last_command_.reset }

/-- The class `PositionJointLimiter : public JointLimiter`. -/
structure PositionJointLimiter extends JointLimiter where
  pos_ : DataStore Int
  deriving DecidableEq

/-- The override `PositionJointLimiter::recover`: `pos_.reset()`. -/
def PositionJointLimiter.recover (l : PositionJointLimiter) : PositionJointLimiter :=
  { l with pos_ := l.pos_.reset }

/-- The class `VelocityJointLimiter : public JointLimiter`. -/
structure VelocityJointLimiter extends JointLimiter where
  vel_ : DataStore Int
  deriving DecidableEq

/-- The override `VelocityJointLimiter::recover`: `vel_.reset()`. -/
def VelocityJointLimiter.recover (l : VelocityJointLimiter) : VelocityJointLimiter :=
  { l with vel_ := l.vel_.reset }

/-- The class `EffortJointLimiter : public JointLimiter`. -/
structure EffortJointLimiter extends JointLimiter where
  eff_ : DataStore Int
  deriving DecidableEq

/-- The override `EffortJointLimiter::recover`: `eff_.reset()`. -/
def EffortJointLimiter.recover (l : EffortJointLimiter) : EffortJointLimiter :=
  { l with eff_ := l.eff_.reset }

/-! ## HandleLayer (robot_layer.cpp) -/

/-- The three command handles a HandleLayer owns: the targets of the pointers
`&jph_` (position), `&jvh_` (velocity) and `&jeh_` (effort). -/
inductive JointHandle where
  | jph_ | jvh_ | jeh_
  deriving DecidableEq

/-- A `LimitedJointHandle*`: `none` is the null pointer. -/
abbrev JointHandlePtr := Option JointHandle

/-- The members of `HandleLayer` the mode switch and the cyclic write use.
`commands_` is the CommandMap (mode to handle pointer) as an association list. -/
structure HandleLayer where
  motor_ : MotorBase
  commands_ : List (OperationMode × JointHandlePtr)
  jh_ : JointHandlePtr
  forward_command_ : Bool
  limits_ : Limits
  overlay_limits_ : Limits
  pos_ : Int
  vel_ : Int
  eff_ : Int
  cmd_pos_ : Int
  cmd_vel_ : Int
  cmd_eff_ : Int
  deriving DecidableEq

/-- The outcome of `HandleLayer::canSwitch`. -/
inductive CanSwitchResult where
  | NotSupported | NotReadyToSwitch | ReadyToSwitch | NoNeedToSwitch
  deriving DecidableEq

/-- Modelled from the spec: the unit conversions `conv_target_pos_`, `conv_target_vel_` and
`conv_target_eff_` (the body of `UnitConverter::evaluate` is not in the source files) are
opaque functions of their input. The constructor binds the variable of each expression
to one command cell: pos to `cmd_pos_`, vel to `cmd_vel_`, eff to `cmd_eff_`. -/
structure TargetConverters where
  conv_target_pos_ : Int → Int
  conv_target_vel_ : Int → Int
  conv_target_eff_ : Int → Int

namespace HandleLayer

/-- The part of the constructor that concerns the mode switch: `jh_(0)`,
`forward_command_(false)` and `commands_[MotorBase::No_Mode] = 0`. The limits are
default-constructed; the value cells, which C++ leaves unset, are given as zero. -/
def construct (motor : MotorBase) : HandleLayer :=
  { motor_ := motor, commands_ := [(No_Mode, none)], jh_ := none, forward_command_ := false,
    limits_ := Limits.empty, overlay_limits_ := Limits.empty,
    pos_ := 0, vel_ := 0, eff_ := 0, cmd_pos_ := 0, cmd_vel_ := 0, cmd_eff_ := 0 }

/-- The member `HandleLayer::select`. -/
def select (h : HandleLayer) (m : OperationMode) : Bool × HandleLayer :=
  match h.commands_.lookup m with
  | none => (false, h)
  | some it => (true, { h with jh_ := it })

/-- The member `HandleLayer::canSwitch`; it only queries the actuator and `commands_`. -/
def canSwitch (h : HandleLayer) (m : OperationMode) : CanSwitchResult :=
  if !h.motor_.isModeSupported m || (h.commands_.lookup m).isNone then
    CanSwitchResult.NotSupported
  else if h.motor_.getMode = m then
    CanSwitchResult.NoNeedToSwitch
  else if h.motor_.getLayerState = LayerState.Ready then
    CanSwitchResult.ReadyToSwitch
  else
    CanSwitchResult.NotReadyToSwitch

/-- The member `HandleLayer::switchMode`. -/
def switchMode (h : HandleLayer) (m : OperationMode) : Bool × HandleLayer :=
  if h.motor_.getMode ≠ m then
    let h1 := { h with forward_command_ := false, jh_ := none }
    let entered := h1.motor_.enterModeAndWait m
    if !entered.1 then
      (false, { h1 with motor_ := entered.2.halt })
    else
      select { h1 with motor_ := entered.2 } m
  else
    select h m

/-- The member `HandleLayer::forwardForMode`. -/
def forwardForMode (h : HandleLayer) (m : OperationMode) : Bool × HandleLayer :=
  if h.motor_.getMode = m then (true, { h with forward_command_ := true })
  else (false, h)

/-- The accessor `getLimits` of the baseline `limits_`. -/
def getLimits (h : HandleLayer) : Limits := h.limits_

/-- The member `HandleLayer::setOverlayLimits`:
`overlay_limits_ = LimitedJointHandle::Limits(limits_, limits)`. -/
def setOverlayLimits (h : HandleLayer) (limits : Limits) : HandleLayer :=
  { h with overlay_limits_ := Limits.mk2 h.limits_ limits }

/-- The member `HandleLayer::handleWrite`. The local `jh` is `jh_` when forwarding is
enabled and the null pointer otherwise. A handle pointer is null or one of the three
handles of the joint, so the warning of the last branch (a non-null pointer that is none
of the three) has no case here. -/
def handleWrite (conv : TargetConverters) (h : HandleLayer) (current_state : LayerState) :
    HandleLayer :=
  if current_state = LayerState.Ready then
    let jh : JointHandlePtr := if h.forward_command_ then h.jh_ else none
    match jh with
    | some JointHandle.jph_ =>
      { h with motor_ := h.motor_.setTarget (conv.conv_target_pos_ h.cmd_pos_),
               cmd_vel_ := h.vel_, cmd_eff_ := h.eff_ }
    | some JointHandle.jvh_ =>
      { h with motor_ := h.motor_.setTarget (conv.conv_target_vel_ h.cmd_vel_),
               cmd_pos_ := h.pos_, cmd_eff_ := h.eff_ }
    | some JointHandle.jeh_ =>
      { h with motor_ := h.motor_.setTarget (conv.conv_target_eff_ h.cmd_eff_),
               cmd_pos_ := h.pos_, cmd_vel_ := h.vel_ }
    | none =>
      { h with cmd_pos_ := h.pos_, cmd_vel_ := h.vel_, cmd_eff_ := h.eff_ }
  else h

end HandleLayer

/-! ## RobotLayer (robot_layer.cpp) -/

/-- A `boost::shared_ptr<HandleLayer>`, as the address of the object it refers to. -/
abbrev HandlePtr := Nat

/-- The HandleLayer objects, by address. -/
abbrev Heap := HandlePtr → HandleLayer

/-- The record `SwitchData { handle, mode, limits }`. -/
structure SwitchData where
  handle : HandlePtr
  mode : OperationMode
  limits : Limits
  deriving DecidableEq

/-- The type `SwitchContainer`: the requests recorded for one controller. -/
abbrev SwitchContainer := List SwitchData

/-- The table `switch_map_`: controller name to its recorded requests. -/
abbrev SwitchMap := List (String × SwitchContainer)

/-- The fields of `hardware_interface::ControllerInfo` the coordinator reads; `resources`
lists the claimed joint names in iteration order. -/
structure ControllerInfo where
  name : String
  resources : List String
  deriving DecidableEq

/-- What the coordinator reads from the parameter server and the robot description:
* `required_drive_mode c`: the parameter of that name in the namespace of controller `c`;
* `urdf_limits j`: `Limits(urdf_.getJoint(j))`;
* `global_limits j`: `Limits(j, nh_, true)`;
* `local_limits c j`: `Limits(j, nh, true)` for the namespace of controller `c`. -/
structure Config where
  required_drive_mode : String → Option Int
  urdf_limits : String → Limits
  global_limits : String → Limits
  local_limits : String → String → Limits

/-- The state of a RobotLayer: the joint table `handles_`, the table `switch_map_`, the
HandleLayer objects, and the lists passed to `stopControllers` so far (oldest first). -/
structure RobotLayer where
  handles_ : List (String × HandlePtr)
  switch_map_ : SwitchMap
  heap : Heap
  stop_requests : List (List String)

/-- The call `switch_map_.insert(std::make_pair(name, to_switch))`: an existing entry is kept. -/
def SwitchMap.insert (sm : SwitchMap) (name : String) (to_switch : SwitchContainer) : SwitchMap :=
  if (sm.lookup name).isSome then sm else sm ++ [(name, to_switch)]

/-- The call `switch_map_.at(name)` in `prepareSwitch`, made only for names the
preceding loops have found or inserted. -/
def SwitchMap.atName (sm : SwitchMap) (name : String) : SwitchContainer :=
  (sm.lookup name).getD []

/-- Insertion into the set `to_stop`. -/
def setInsert (s : List HandlePtr) (p : HandlePtr) : List HandlePtr :=
  if p ∈ s then s else s ++ [p]

/-- Removal from the set `to_stop`. -/
def setErase (s : List HandlePtr) (p : HandlePtr) : List HandlePtr :=
  s.filter (fun q => q != p)

/-- One call `it->handle->switchMode(it->mode)` of the switching pass (line 342): the
starting controller, the handle the call was made on, the handles of the whole record of
that controller, and the value the call returned (`okay`, true when the joint was
switched successfully). -/
structure SwitchEvent where
  controller : String
  handle : HandlePtr
  handles : List HandlePtr
  okay : Bool
  deriving DecidableEq

/-- The locals of the switching pass of `prepareSwitch`, with the HandleLayer objects and
the record of the `switchMode(it->mode)` calls made so far and what they returned. -/
structure SwitchPass where
  heap : Heap
  to_stop : List HandlePtr
  failed_controllers : List String
  events : List SwitchEvent

namespace RobotLayer

/-- The member `RobotLayer::stopControllers`: the request is handed to the controller
manager on a detached thread; here it is recorded. -/
def stopControllers (r : RobotLayer) (controllers : List String) : RobotLayer :=
  { r with stop_requests := r.stop_requests ++ [controllers] }

/-- Lines 277-283 of `prepareSwitch`: every stopping controller has a record. -/
def checkStopList (sm : SwitchMap) : List ControllerInfo → Bool
  | [] => true
  | c :: rest => if (sm.lookup c.name).isNone then false else checkStopList sm rest

/-- The overlay computed at lines 311-315 for a joint of a starting controller. -/
def switchLimits (cfg : Config) (controller joint_name : String) (h : HandleLayer) : Limits :=
  let controller_limits :=
    ((cfg.urdf_limits joint_name).apply (cfg.global_limits joint_name)).apply
      (cfg.local_limits controller joint_name)
  Limits.mk2 h.getLimits controller_limits

/-- Lines 291-319 of `prepareSwitch`: the loop over the resources of one starting
controller; `none` stands for `return false`. -/
def collectSwitches (cfg : Config) (r : RobotLayer) (controller : String) (mode : Int) :
    List String → SwitchContainer → Option SwitchContainer
  | [], to_switch => some to_switch
  | joint_name :: rest, to_switch =>
    match r.handles_.lookup joint_name with
    | none => none
    | some h_it =>
      match (r.heap h_it).canSwitch mode with
      | CanSwitchResult.NotSupported => none
      | CanSwitchResult.NotReadyToSwitch => none
      | _ =>
        collectSwitches cfg r controller mode rest
          (to_switch ++ [{ handle := h_it, mode := mode,
                           limits := switchLimits cfg controller joint_name (r.heap h_it) }])

/-- Lines 286-324 of `prepareSwitch`: the loop over the starting controllers. The result is
whether the loop ran to its end, and the table as the loop left it. -/
def startHandles (cfg : Config) (r : RobotLayer) : List ControllerInfo → SwitchMap → Bool × SwitchMap
  | [], sm => (true, sm)
  | c :: rest, sm =>
    match cfg.required_drive_mode c.name with
    | some mode =>
      match collectSwitches cfg r c.name mode c.resources [] with
      | none => (false, sm)
      | some to_switch => startHandles cfg r rest (sm.insert c.name to_switch)
    | none => startHandles cfg r rest (sm.insert c.name [])

/-- The list `to_switch` that lines 287-322 hand to the insert of line 323 for a starting
controller that passes the validation: the requests of its claimed joints when it
declares a required drive mode, the empty list when it does not. -/
def builtRequests (cfg : Config) (r : RobotLayer) (c : ControllerInfo) : SwitchContainer :=
  match cfg.required_drive_mode c.name with
  | some mode => (collectSwitches cfg r c.name mode c.resources []).getD []
  | none => []

/-- The validation of lines 287-322 fails for a starting controller: it declares a
required drive mode and the loop over its joints returns false (a joint is unknown, or
classifies as NotSupported or NotReadyToSwitch). -/
def FailsValidation (cfg : Config) (r : RobotLayer) (c : ControllerInfo) : Prop :=
  ∃ mode, cfg.required_drive_mode c.name = some mode
    ∧ collectSwitches cfg r c.name mode c.resources [] = none

/-- Lines 329-334 of `prepareSwitch`: the handles of the stopping controllers. -/
def collectToStop (sm : SwitchMap) : List ControllerInfo → List HandlePtr → List HandlePtr
  | [], to_stop => to_stop
  | c :: rest, to_stop =>
    collectToStop sm rest ((sm.atName c.name).foldl (fun s d => setInsert s d.handle) to_stop)

/-- Lines 338-340 of `prepareSwitch`: `switchMode(No_Mode)` on every joint of the record. -/
def stopAll : SwitchContainer → Heap → Heap
  | [], heap => heap
  | d :: rest, heap =>
    stopAll rest (Function.update heap d.handle ((heap d.handle).switchMode No_Mode).2)

/-- Lines 341-352 of `prepareSwitch`: the joints of one record are switched in order;
`to_switch` is the whole record, the list argument what is left of it. Each call of
`switchMode(it->mode)` is recorded in `events` with the value it returned, whichever
branch is then taken. -/
def switchJoints (controller : String) (to_switch : SwitchContainer) :
    SwitchContainer → SwitchPass → SwitchPass
  | [], st => st
  | d :: rest, st =>
    let res := (st.heap d.handle).switchMode d.mode
    let heap := Function.update st.heap d.handle res.2
    if !res.1 then
      { heap := heap,
        to_stop := to_switch.foldl (fun s x => setInsert s x.handle) st.to_stop,
        failed_controllers := st.failed_controllers ++ [controller],
        events := st.events ++ [{ controller := controller, handle := d.handle,
                                  handles := to_switch.map (fun x => x.handle),
                                  okay := res.1 }] }
    else
      switchJoints controller to_switch rest
        { heap := heap,
          to_stop := setErase st.to_stop d.handle,
          failed_controllers := st.failed_controllers,
          events := st.events ++ [{ controller := controller, handle := d.handle,
                                    handles := to_switch.map (fun x => x.handle),
                                    okay := res.1 }] }

/-- Lines 335-353 of `prepareSwitch`: the loop over the starting controllers. -/
def performSwitches (sm : SwitchMap) : List ControllerInfo → SwitchPass → SwitchPass
  | [], st => st
  | c :: rest, st =>
    let to_switch := sm.atName c.name
    performSwitches sm rest
      (switchJoints c.name to_switch to_switch { st with heap := stopAll to_switch st.heap })

/-- Lines 354-357 of `prepareSwitch`: every handle left in `to_stop` is switched to
No_Mode and its overlay limits are reset. The set is visited in the order of the list;
the steps act on distinct objects, so the order does not show in the result. -/
def forceIdle : List HandlePtr → Heap → Heap
  | [], heap => heap
  | p :: rest, heap =>
    forceIdle rest
      (Function.update heap p (((heap p).switchMode No_Mode).2.setOverlayLimits Limits.empty))

/-- The state of the switching pass of `prepareSwitch` after line 353, for the table `sm`
left by the validation. -/
def switchingPass (sm : SwitchMap) (start_list stop_list : List ControllerInfo)
    (heap : Heap) : SwitchPass :=
  performSwitches sm start_list
    { heap := heap, to_stop := collectToStop sm stop_list [], failed_controllers := [],
      events := [] }

/-- Lines 354-361 of `prepareSwitch`: the handles in `to_stop` are forced to No_Mode, and
a non-empty failure list is handed to `stopControllers`. -/
def finishSwitch (r : RobotLayer) (st : SwitchPass) : RobotLayer :=
  let r1 : RobotLayer := { r with heap := forceIdle st.to_stop st.heap }
  if st.failed_controllers.isEmpty then r1 else r1.stopControllers st.failed_controllers

/-- The member `RobotLayer::prepareSwitch`: the value returned and the state left. -/
def prepareSwitch (cfg : Config) (start_list stop_list : List ControllerInfo)
    (r : RobotLayer) : Bool × RobotLayer :=
  if !checkStopList r.switch_map_ stop_list then (false, r)
  else
    let started := startHandles cfg r start_list r.switch_map_
    if !started.1 then (false, { r with switch_map_ := started.2 })
    else
      (true, finishSwitch { r with switch_map_ := started.2 }
               (switchingPass started.2 start_list stop_list r.heap))

/-- Lines 371-381 of `doSwitch`: the joints of one record are released for forwarding in
order; `to_switch` is the whole record. On the first failure `switchMode(No_Mode)` is
called on the failing handle `it->handle` once per entry of the record. -/
def forwardJoints (controller : String) (to_switch : SwitchContainer) :
    SwitchContainer → Heap × List String → Heap × List String
  | [], st => st
  | d :: rest, st =>
    let res := (st.1 d.handle).forwardForMode d.mode
    let heap := Function.update st.1 d.handle res.2
    if !res.1 then
      (to_switch.foldl
         (fun hp _ => Function.update hp d.handle ((hp d.handle).switchMode No_Mode).2) heap,
       st.2 ++ [controller])
    else
      forwardJoints controller to_switch rest
        (Function.update heap d.handle ((heap d.handle).setOverlayLimits d.limits), st.2)

/-- Lines 368-387 of `doSwitch`: the loop over the starting controllers; a controller
without a record (`switch_map_.at` throws) is put on the failure list. -/
def forwardControllers (sm : SwitchMap) :
    List ControllerInfo → Heap × List String → Heap × List String
  | [], st => st
  | c :: rest, st =>
    match sm.lookup c.name with
    | some to_switch => forwardControllers sm rest (forwardJoints c.name to_switch to_switch st)
    | none => forwardControllers sm rest (st.1, st.2 ++ [c.name])

/-- The member `RobotLayer::doSwitch`. -/
def doSwitch (start_list _stop_list : List ControllerInfo) (r : RobotLayer) : RobotLayer :=
  let st := forwardControllers r.switch_map_ start_list (r.heap, [])
  let r1 : RobotLayer := { r with heap := st.1 }
  if st.2.isEmpty then r1 else r1.stopControllers st.2

end RobotLayer

/-! ## State predicates used in the statements -/

/-- A joint is idle: its actuator reports No_Mode, no command handle is selected and
forwarding is disabled. -/
def HandleLayer.Idle (h : HandleLayer) : Prop :=
  h.motor_.getMode = No_Mode ∧ h.jh_ = none ∧ h.forward_command_ = false

/-- The actuator accepts the entry into No_Mode, and `commands_` holds the null handle
for No_Mode, as the constructor sets it. -/
def HandleLayer.CanIdle (h : HandleLayer) : Prop :=
  No_Mode ∉ h.motor_.rejected_modes ∧ h.commands_.lookup No_Mode = some none

/-- What the source does to the set `to_stop` after each call of `switchMode(it->mode)`,
as a function of the value the call returned: after a call that returned true the handle
is erased (line 351), after a call that returned false the handles of the whole record
are inserted (lines 345-347). -/
def applyEvents : List SwitchEvent → List HandlePtr → List HandlePtr
  | [], s => s
  | ev :: rest, s =>
    applyEvents rest (if ev.okay then setErase s ev.handle else ev.handles.foldl setInsert s)

/-! ## Example states -/

/-- A drive that supports profiled position and homing, idle and ready, accepting every
mode entry. -/
def exampleMotor : MotorBase :=
  { supported_modes := [Profiled_Position, Homing], mode := No_Mode,
    layer_state := LayerState.Ready, rejected_modes := [], mode_after_reject := none,
    calls := [] }

/-- A joint as the constructor leaves it, with the position handle registered for
profiled position. -/
def exampleHandle : HandleLayer :=
  { HandleLayer.construct exampleMotor with
    commands_ := [(No_Mode, none), (Profiled_Position, some JointHandle.jph_)] }

/-- A configuration without limits in which the controllers named C and C2 require
profiled position. -/
def exampleConfig : Config :=
  { required_drive_mode := fun c =>
      if c = "C" ∨ c = "C2" then some Profiled_Position else none,
    urdf_limits := fun _ => Limits.empty,
    global_limits := fun _ => Limits.empty,
    local_limits := fun _ _ => Limits.empty }

/-- A robot with the joints A (handle 0) and B (handle 1), nothing started yet. -/
def exampleRobot : RobotLayer :=
  { handles_ := [("A", 0), ("B", 1)], switch_map_ := [], heap := fun _ => exampleHandle,
    stop_requests := [] }

/-- The joint of `exampleHandle` with a baseline that configures position limits. -/
def limitedHandle : HandleLayer :=
  { exampleHandle with
    limits_ := { Limits.empty with limits_flags := Limits.PositionLimitsConfigured,
                                   min_position := -3, max_position := 3 },
    overlay_limits_ := { Limits.empty with limits_flags := Limits.PositionLimitsConfigured,
                                           min_position := -3, max_position := 3 } }

/-- A drive that supports homing and is in homing mode, ready. -/
def homingHandle : HandleLayer :=
  { exampleHandle with motor_ := { exampleMotor with mode := Homing } }

/-- A robot after a successful start of controller C on the joints A and B in profiled
position, where the drive of B has meanwhile left that mode: A (handle 0) is in profiled
position with its position handle selected, B (handle 1) reports No_Mode. -/
def droppedRobot : RobotLayer :=
  { handles_ := [("A", 0), ("B", 1)],
    switch_map_ := [("C", [{ handle := 0, mode := Profiled_Position, limits := Limits.empty },
                           { handle := 1, mode := Profiled_Position, limits := Limits.empty }])],
    heap := fun p =>
      if p = 0 then
        { exampleHandle with motor_ := { exampleMotor with mode := Profiled_Position },
                             jh_ := some JointHandle.jph_ }
      else
        { exampleHandle with jh_ := some JointHandle.jph_ },
    stop_requests := [] }

/-- The robot of `exampleRobot` in which the drive of joint B (handle 1) is halted, hence
not Ready. -/
def notReadyRobot : RobotLayer :=
  { exampleRobot with
    heap := fun p =>
      if p = 1 then
        { exampleHandle with motor_ := { exampleMotor with layer_state := LayerState.Halt } }
      else exampleHandle }

/-- The robot of `exampleRobot` in which the drive of joint B (handle 1) rejects the
entry into profiled position. -/
def rejectingRobot : RobotLayer :=
  { exampleRobot with
    heap := fun p =>
      if p = 1 then
        { exampleHandle with
          motor_ := { exampleMotor with rejected_modes := [Profiled_Position] } }
      else exampleHandle }

/-- A robot on which controller C runs joint A (handle 0) and controller D runs joint B
(handle 1), both in profiled position with forwarding enabled. -/
def runningRobot : RobotLayer :=
  { handles_ := [("A", 0), ("B", 1)],
    switch_map_ := [("C", [{ handle := 0, mode := Profiled_Position, limits := Limits.empty }]),
                    ("D", [{ handle := 1, mode := Profiled_Position, limits := Limits.empty }])],
    heap := fun _ =>
      { exampleHandle with motor_ := { exampleMotor with mode := Profiled_Position },
                           jh_ := some JointHandle.jph_, forward_command_ := true },
    stop_requests := [] }

/-- A robot on which controller C was started on joint B (handle 1) in profiled position
and stopped again: the state after prepareSwitch and doSwitch for the start, then
prepareSwitch and doSwitch for the stop, from `exampleRobot`. -/
def restartRobot : RobotLayer :=
  RobotLayer.doSwitch [] [{ name := "C", resources := ["B"] }]
    (RobotLayer.prepareSwitch exampleConfig [] [{ name := "C", resources := ["B"] }]
      (RobotLayer.doSwitch [{ name := "C", resources := ["B"] }] []
        (RobotLayer.prepareSwitch exampleConfig [{ name := "C", resources := ["B"] }] []
          exampleRobot).2)).2

/-- Target conversions that scale the command by 1000, 100 and 10. -/
def exampleConverters : TargetConverters :=
  { conv_target_pos_ := fun x => 1000 * x,
    conv_target_vel_ := fun x => 100 * x,
    conv_target_eff_ := fun x => 10 * x }

/-- A joint in profiled position with the position handle selected and forwarding
enabled, measuring (1, 2, 3) and commanded (4, 5, 6). -/
def forwardingHandle : HandleLayer :=
  { exampleHandle with
    motor_ := { exampleMotor with mode := Profiled_Position },
    jh_ := some JointHandle.jph_, forward_command_ := true,
    pos_ := 1, vel_ := 2, eff_ := 3, cmd_pos_ := 4, cmd_vel_ := 5, cmd_eff_ := 6 }

/-- The joint of `forwardingHandle` on a drive that rejects the entry into the velocity
mode. -/
def rejectingHandle : HandleLayer :=
  { forwardingHandle with
    motor_ := { exampleMotor with mode := Profiled_Position, rejected_modes := [Velocity] } }

end canopen

/-! ## Theorems -/

namespace canopen

/-! ### Limits and limiters -/

theorem Limits.merge_empty (l : Limits) : l.merge Limits.empty = l := by
  cases l
  simp [Limits.merge, Limits.empty, Limits.mergeMax, Limits.mergeMin, Limits.hasPositionLimits,
    Limits.hasVelocityLimits, Limits.hasAccelerationLimits, Limits.hasJerkLimits,
    Limits.hasEffortLimits, Limits.hasSoftLimits]

theorem HandleLayer.setOverlayLimits_empty (h : HandleLayer) :
    (h.setOverlayLimits Limits.empty).overlay_limits_ = h.limits_ := by
  simp [HandleLayer.setOverlayLimits, Limits.mk2, Limits.merge_empty]

theorem HandleLayer.select_limits (h : HandleLayer) (m : OperationMode) :
    (h.select m).2.limits_ = h.limits_ := by
  unfold HandleLayer.select
  split <;> rfl

theorem HandleLayer.switchMode_limits (h : HandleLayer) (m : OperationMode) :
    (h.switchMode m).2.limits_ = h.limits_ := by
  unfold HandleLayer.switchMode
  dsimp only
  split
  · split
    · rfl
    · rw [HandleLayer.select_limits]
  · rw [HandleLayer.select_limits]

theorem RobotLayer.forceIdle_limits (l : List HandlePtr) (heap : Heap) (p : HandlePtr) :
    (RobotLayer.forceIdle l heap p).limits_ = (heap p).limits_ := by
  induction l generalizing heap with
  | nil => rfl
  | cons q rest ih =>
    rw [RobotLayer.forceIdle, ih]
    by_cases hpq : p = q
    · subst hpq
      rw [Function.update_same]
      simp [HandleLayer.setOverlayLimits, HandleLayer.switchMode_limits]
    · rw [Function.update_noteq hpq]

theorem RobotLayer.forceIdle_not_mem (l : List HandlePtr) (heap : Heap) (p : HandlePtr)
    (hp : p ∉ l) : RobotLayer.forceIdle l heap p = heap p := by
  induction l generalizing heap with
  | nil => rfl
  | cons q rest ih =>
    have hq : p ≠ q := fun h => hp (h ▸ List.mem_cons_self _ _)
    have hr : p ∉ rest := fun h => hp (List.mem_cons_of_mem _ h)
    rw [RobotLayer.forceIdle, ih _ hr, Function.update_noteq hq]

theorem RobotLayer.forceIdle_overlay (l : List HandlePtr) (heap : Heap) (p : HandlePtr)
    (hp : p ∈ l) : (RobotLayer.forceIdle l heap p).overlay_limits_ = (heap p).limits_ := by
  induction l generalizing heap with
  | nil => cases hp
  | cons q rest ih =>
    rw [RobotLayer.forceIdle]
    by_cases hr : p ∈ rest
    · rw [ih _ hr]
      by_cases hpq : p = q
      · subst hpq
        rw [Function.update_same]
        simp [HandleLayer.setOverlayLimits, HandleLayer.switchMode_limits]
      · rw [Function.update_noteq hpq]
    · have hpq : p = q := by
        rcases List.mem_cons.mp hp with h | h
        · exact h
        · exact absurd h hr
      subst hpq
      rw [RobotLayer.forceIdle_not_mem _ _ _ hr, Function.update_same,
        HandleLayer.setOverlayLimits_empty, HandleLayer.switchMode_limits]

/-- C10 (the code at the failing input): each of the position, velocity and effort
limiters, holding 5 in last_command_ and 7 in its own cell, still reports the value 5 from
last_command_ after recover(); only the own cell is emptied. -/
theorem variant_recover_keeps_last_command :
    ((PositionJointLimiter.recover
        { last_command_ := ⟨true, 5⟩, pos_ := ⟨true, 7⟩ }).last_command_.get 0 = (true, 5)
      ∧ ((PositionJointLimiter.recover
        { last_command_ := ⟨true, 5⟩, pos_ := ⟨true, 7⟩ }).pos_.get 0).1 = false)
    ∧ ((VelocityJointLimiter.recover
        { last_command_ := ⟨true, 5⟩, vel_ := ⟨true, 7⟩ }).last_command_.get 0 = (true, 5)
      ∧ ((VelocityJointLimiter.recover
        { last_command_ := ⟨true, 5⟩, vel_ := ⟨true, 7⟩ }).vel_.get 0).1 = false)
    ∧ ((EffortJointLimiter.recover
        { last_command_ := ⟨true, 5⟩, eff_ := ⟨true, 7⟩ }).last_command_.get 0 = (true, 5)
      ∧ ((EffortJointLimiter.recover
        { last_command_ := ⟨true, 5⟩, eff_ := ⟨true, 7⟩ }).eff_.get 0).1 = false) := by
  decide

/-- The override of a variant leaves last_command_ as it was, for every prior state. -/
theorem PositionJointLimiter.recover_last_command (l : PositionJointLimiter) :
    l.recover.last_command_ = l.last_command_ ∧ (l.recover.pos_.get 0).1 = false :=
  ⟨rfl, rfl⟩

/-- The base body of recover() empties last_command_, for every prior state. -/
theorem JointLimiter.recover_clears (l : JointLimiter) (d : Int) :
    (l.recover.last_command_.get d).1 = false := rfl

/-- C9 (the claim fails): a joint whose baseline configures position limits still has the
position flag set in its overlay after setOverlayLimits(Limits()). -/
theorem setOverlayLimits_empty_not_cleared :
    (limitedHandle.setOverlayLimits Limits.empty).overlay_limits_.limits_flags ≠ 0
    ∧ (limitedHandle.setOverlayLimits Limits.empty).overlay_limits_.hasPositionLimits = true := by
  decide

/-- C9 (amended): a handle the coordinator forces to Idle (a member of to_stop) ends with
its overlay limits equal to its baseline limits, because setOverlayLimits(Limits()) merges
the empty limits into the baseline; the overlay has no field configured exactly when the
baseline has none. -/
theorem forced_idle_overlay_is_baseline (to_stop : List HandlePtr) (heap : Heap)
    (p : HandlePtr) (hp : p ∈ to_stop) :
    (RobotLayer.forceIdle to_stop heap p).overlay_limits_ = (heap p).limits_
    ∧ ((heap p).setOverlayLimits Limits.empty).overlay_limits_ = (heap p).limits_
    ∧ ((RobotLayer.forceIdle to_stop heap p).overlay_limits_.limits_flags = 0
        ↔ (heap p).limits_.limits_flags = 0) := by
  refine ⟨RobotLayer.forceIdle_overlay _ _ _ hp, HandleLayer.setOverlayLimits_empty _, ?_⟩
  rw [RobotLayer.forceIdle_overlay _ _ _ hp]

/-- C9 (amended) at a concrete state: handle 1, with position limits in its baseline, forced to Idle as a member of the set to_stop. -/
theorem forced_idle_overlay_is_baseline_witness :
    (1 : HandlePtr) ∈ [0, 1]
    ∧ (RobotLayer.forceIdle [0, 1] (fun _ => limitedHandle) 1).overlay_limits_
        = limitedHandle.limits_
    ∧ (limitedHandle.setOverlayLimits Limits.empty).overlay_limits_ = limitedHandle.limits_
    ∧ ((RobotLayer.forceIdle [0, 1] (fun _ => limitedHandle) 1).overlay_limits_.limits_flags = 0
        ↔ limitedHandle.limits_.limits_flags = 0) :=
  ⟨by decide, forced_idle_overlay_is_baseline [0, 1] (fun _ => limitedHandle) 1 (by decide)⟩

/-- C4 (the claim fails): a drive that supports homing, is already in homing mode and is
Ready classifies a request for homing as NotSupported, not NoNeedToSwitch, because
commands_ has no entry for that mode; likewise an idle, Ready drive that supports homing
classifies the request as NotSupported, not ReadyToSwitch. -/
theorem canSwitch_supported_without_handle :
    (homingHandle.motor_.isModeSupported Homing = true
      ∧ homingHandle.motor_.getMode = Homing
      ∧ homingHandle.motor_.getLayerState = LayerState.Ready
      ∧ homingHandle.canSwitch Homing = CanSwitchResult.NotSupported
      ∧ homingHandle.canSwitch Homing ≠ CanSwitchResult.NoNeedToSwitch)
    ∧ (exampleHandle.motor_.isModeSupported Homing = true
      ∧ exampleHandle.motor_.getMode ≠ Homing
      ∧ exampleHandle.motor_.getLayerState = LayerState.Ready
      ∧ exampleHandle.canSwitch Homing = CanSwitchResult.NotSupported
      ∧ exampleHandle.canSwitch Homing ≠ CanSwitchResult.ReadyToSwitch) := by
  decide

/-- C4 (amended): canSwitch(m) is NotSupported exactly when the actuator does not support
m or commands_ has no entry for m; for a mode that is supported and has an entry it is
NoNeedToSwitch exactly when the actuator is already in m, ReadyToSwitch exactly when the
actuator is in a different mode and Ready, and NotReadyToSwitch exactly when it is in a
different mode and not Ready. The classification reads the joint state and changes none
of it (canSwitch is a function of the state). -/
theorem canSwitch_classification (h : HandleLayer) (m : OperationMode) :
    (h.canSwitch m = CanSwitchResult.NotSupported
      ↔ (h.motor_.isModeSupported m = false ∨ h.commands_.lookup m = none))
    ∧ (h.canSwitch m = CanSwitchResult.NoNeedToSwitch
      ↔ (h.motor_.isModeSupported m = true ∧ (h.commands_.lookup m).isSome = true
          ∧ h.motor_.getMode = m))
    ∧ (h.canSwitch m = CanSwitchResult.ReadyToSwitch
      ↔ (h.motor_.isModeSupported m = true ∧ (h.commands_.lookup m).isSome = true
          ∧ h.motor_.getMode ≠ m ∧ h.motor_.getLayerState = LayerState.Ready))
    ∧ (h.canSwitch m = CanSwitchResult.NotReadyToSwitch
      ↔ (h.motor_.isModeSupported m = true ∧ (h.commands_.lookup m).isSome = true
          ∧ h.motor_.getMode ≠ m ∧ h.motor_.getLayerState ≠ LayerState.Ready)) := by
  unfold HandleLayer.canSwitch
  cases hs : h.motor_.isModeSupported m <;> cases hl : h.commands_.lookup m <;>
    by_cases hm : h.motor_.getMode = m <;>
    by_cases hr : h.motor_.getLayerState = LayerState.Ready <;>
    simp [hm, hr]

/-! ### Validation in prepareSwitch -/

theorem RobotLayer.checkStopList_unknown (sm : SwitchMap) (stop_list : List ControllerInfo)
    (h : ∃ c ∈ stop_list, sm.lookup c.name = none) :
    RobotLayer.checkStopList sm stop_list = false := by
  induction stop_list with
  | nil => obtain ⟨c, hc, _⟩ := h; cases hc
  | cons c0 rest ih =>
    obtain ⟨c, hc, hnone⟩ := h
    unfold RobotLayer.checkStopList
    by_cases h0 : (sm.lookup c0.name).isNone = true
    · rw [if_pos h0]
    · rw [if_neg h0]
      rcases List.mem_cons.mp hc with heq | hmem
      · subst heq
        rw [hnone] at h0
        exact absurd rfl h0
      · exact ih ⟨c, hmem, hnone⟩

theorem RobotLayer.collectSwitches_bad (cfg : Config) (r : RobotLayer) (controller : String)
    (mode : Int) (resources : List String) (acc : SwitchContainer)
    (h : ∃ j ∈ resources, ∃ p, r.handles_.lookup j = some p
        ∧ ((r.heap p).canSwitch mode = CanSwitchResult.NotSupported
            ∨ (r.heap p).canSwitch mode = CanSwitchResult.NotReadyToSwitch)) :
    RobotLayer.collectSwitches cfg r controller mode resources acc = none := by
  induction resources generalizing acc with
  | nil => obtain ⟨j, hj, _⟩ := h; cases hj
  | cons j0 rest ih =>
    obtain ⟨j, hj, p, hp, hbad⟩ := h
    unfold RobotLayer.collectSwitches
    cases h0 : r.handles_.lookup j0 with
    | none => rfl
    | some p0 =>
      dsimp only
      cases hc : (r.heap p0).canSwitch mode with
      | NotSupported => rfl
      | NotReadyToSwitch => rfl
      | ReadyToSwitch =>
        dsimp only
        apply ih
        rcases List.mem_cons.mp hj with heq | hmem
        · subst heq
          rw [h0] at hp
          cases hp
          rw [hc] at hbad
          rcases hbad with hb | hb <;> cases hb
        · exact ⟨j, hmem, p, hp, hbad⟩
      | NoNeedToSwitch =>
        dsimp only
        apply ih
        rcases List.mem_cons.mp hj with heq | hmem
        · subst heq
          rw [h0] at hp
          cases hp
          rw [hc] at hbad
          rcases hbad with hb | hb <;> cases hb
        · exact ⟨j, hmem, p, hp, hbad⟩

theorem RobotLayer.startHandles_bad (cfg : Config) (r : RobotLayer)
    (start_list : List ControllerInfo) (sm : SwitchMap)
    (h : ∃ c ∈ start_list, ∃ mode, cfg.required_drive_mode c.name = some mode
        ∧ RobotLayer.collectSwitches cfg r c.name mode c.resources [] = none) :
    (RobotLayer.startHandles cfg r start_list sm).1 = false := by
  induction start_list generalizing sm with
  | nil => obtain ⟨c, hc, _⟩ := h; cases hc
  | cons c0 rest ih =>
    obtain ⟨c, hc, mode, hmode, hnone⟩ := h
    unfold RobotLayer.startHandles
    cases h0 : cfg.required_drive_mode c0.name with
    | none =>
      dsimp only
      apply ih
      rcases List.mem_cons.mp hc with heq | hmem
      · subst heq
        rw [h0] at hmode
        cases hmode
      · exact ⟨c, hmem, mode, hmode, hnone⟩
    | some mode0 =>
      dsimp only
      cases h1 : RobotLayer.collectSwitches cfg r c0.name mode0 c0.resources [] with
      | none => rfl
      | some to_switch =>
        dsimp only
        apply ih
        rcases List.mem_cons.mp hc with heq | hmem
        · subst heq
          rw [h0] at hmode
          cases hmode
          rw [h1] at hnone
          cases hnone
        · exact ⟨c, hmem, mode, hmode, hnone⟩

theorem SwitchMap.insert_eq_append (sm : SwitchMap) (name : String) (v : SwitchContainer) :
    ∃ added : SwitchMap, sm.insert name v = sm ++ added ∧ ∀ e ∈ added, e.1 = name := by
  unfold SwitchMap.insert
  split
  · exact ⟨[], by simp, by simp⟩
  · exact ⟨[(name, v)], rfl, by simp⟩

theorem RobotLayer.startHandles_extends (cfg : Config) (r : RobotLayer)
    (start_list : List ControllerInfo) (sm : SwitchMap) :
    ∃ added : SwitchMap, (RobotLayer.startHandles cfg r start_list sm).2 = sm ++ added
      ∧ ∀ e ∈ added, ∃ c ∈ start_list, c.name = e.1 := by
  induction start_list generalizing sm with
  | nil => exact ⟨[], by simp [RobotLayer.startHandles], by simp⟩
  | cons c0 rest ih =>
    have step : ∀ v : SwitchContainer, ∃ added : SwitchMap,
        (RobotLayer.startHandles cfg r rest (sm.insert c0.name v)).2 = sm ++ added
        ∧ ∀ e ∈ added, ∃ c ∈ c0 :: rest, c.name = e.1 := by
      intro v
      obtain ⟨a1, h1, hk1⟩ := SwitchMap.insert_eq_append sm c0.name v
      obtain ⟨a2, h2, hk2⟩ := ih (sm.insert c0.name v)
      refine ⟨a1 ++ a2, ?_, ?_⟩
      · rw [h2, h1, List.append_assoc]
      · intro e he
        rcases List.mem_append.mp he with h | h
        · exact ⟨c0, List.mem_cons_self _ _, (hk1 e h).symm⟩
        · obtain ⟨c, hc, hn⟩ := hk2 e h
          exact ⟨c, List.mem_cons_of_mem _ hc, hn⟩
    unfold RobotLayer.startHandles
    cases h0 : cfg.required_drive_mode c0.name with
    | none => exact step []
    | some mode0 =>
      dsimp only
      cases h1 : RobotLayer.collectSwitches cfg r c0.name mode0 c0.resources [] with
      | none => exact ⟨[], by simp, by simp⟩
      | some to_switch => exact step to_switch

theorem SwitchMap.insert_eq_append_entry (sm : SwitchMap) (name : String)
    (v : SwitchContainer) :
    ∃ added : SwitchMap, sm.insert name v = sm ++ added ∧ ∀ e ∈ added, e = (name, v) := by
  unfold SwitchMap.insert
  split
  · exact ⟨[], by simp, by simp⟩
  · exact ⟨[(name, v)], rfl, by simp⟩

theorem RobotLayer.startHandles_added (cfg : Config) (r : RobotLayer)
    (start_list : List ControllerInfo) (sm : SwitchMap)
    (hok : (RobotLayer.startHandles cfg r start_list sm).1 = true) :
    ∃ added : SwitchMap, (RobotLayer.startHandles cfg r start_list sm).2 = sm ++ added
      ∧ ∀ e ∈ added, ∃ c ∈ start_list, c.name = e.1
          ∧ e.2 = RobotLayer.builtRequests cfg r c := by
  induction start_list generalizing sm with
  | nil => exact ⟨[], by simp [RobotLayer.startHandles], by simp⟩
  | cons c0 rest ih =>
    have step : ∀ v : SwitchContainer, v = RobotLayer.builtRequests cfg r c0 →
        (RobotLayer.startHandles cfg r rest (sm.insert c0.name v)).1 = true →
        ∃ added : SwitchMap,
          (RobotLayer.startHandles cfg r rest (sm.insert c0.name v)).2 = sm ++ added
          ∧ ∀ e ∈ added, ∃ c ∈ c0 :: rest, c.name = e.1
              ∧ e.2 = RobotLayer.builtRequests cfg r c := by
      intro v hv hrest
      obtain ⟨a1, h1, hk1⟩ := SwitchMap.insert_eq_append_entry sm c0.name v
      obtain ⟨a2, h2, hk2⟩ := ih (sm.insert c0.name v) hrest
      refine ⟨a1 ++ a2, ?_, ?_⟩
      · rw [h2, h1, List.append_assoc]
      · intro e he
        rcases List.mem_append.mp he with h | h
        · refine ⟨c0, List.mem_cons_self _ _, ?_, ?_⟩
          · rw [hk1 e h]
          · rw [hk1 e h]
            exact hv
        · obtain ⟨c, hc, hn⟩ := hk2 e h
          exact ⟨c, List.mem_cons_of_mem _ hc, hn⟩
    unfold RobotLayer.startHandles at hok ⊢
    cases h0 : cfg.required_drive_mode c0.name with
    | none =>
      rw [h0] at hok
      exact step [] (by simp [RobotLayer.builtRequests, h0]) hok
    | some mode0 =>
      rw [h0] at hok
      dsimp only at hok ⊢
      cases h1 : RobotLayer.collectSwitches cfg r c0.name mode0 c0.resources [] with
      | none =>
        rw [h1] at hok
        cases hok
      | some to_switch =>
        rw [h1] at hok
        exact step to_switch (by simp [RobotLayer.builtRequests, h0, h1]) hok

theorem RobotLayer.startHandles_split (cfg : Config) (r : RobotLayer)
    (start_list : List ControllerInfo) (sm : SwitchMap)
    (hf : (RobotLayer.startHandles cfg r start_list sm).1 = false) :
    ∃ pre c post, start_list = pre ++ c :: post
      ∧ (RobotLayer.startHandles cfg r pre sm).1 = true
      ∧ RobotLayer.FailsValidation cfg r c
      ∧ (RobotLayer.startHandles cfg r start_list sm).2
          = (RobotLayer.startHandles cfg r pre sm).2 := by
  induction start_list generalizing sm with
  | nil => cases hf
  | cons c0 rest ih =>
    have step : ∀ v : SwitchContainer,
        RobotLayer.startHandles cfg r [c0] sm
          = (true, sm.insert c0.name v) →
        (∀ l, RobotLayer.startHandles cfg r (c0 :: l) sm
          = RobotLayer.startHandles cfg r l (sm.insert c0.name v)) →
        (RobotLayer.startHandles cfg r rest (sm.insert c0.name v)).1 = false →
        ∃ pre c post, c0 :: rest = pre ++ c :: post
          ∧ (RobotLayer.startHandles cfg r pre sm).1 = true
          ∧ RobotLayer.FailsValidation cfg r c
          ∧ (RobotLayer.startHandles cfg r (c0 :: rest) sm).2
              = (RobotLayer.startHandles cfg r pre sm).2 := by
      intro v _ hcons hrest
      obtain ⟨pre, c, post, hsplit, hpre, hfail, heq⟩ := ih (sm.insert c0.name v) hrest
      refine ⟨c0 :: pre, c, post, by rw [hsplit]; rfl, ?_, hfail, ?_⟩
      · rw [hcons]; exact hpre
      · rw [hcons, hcons]; exact heq
    cases h0 : cfg.required_drive_mode c0.name with
    | none =>
      have hcons : ∀ l, RobotLayer.startHandles cfg r (c0 :: l) sm
          = RobotLayer.startHandles cfg r l (sm.insert c0.name []) := by
        intro l
        rw [RobotLayer.startHandles, h0]
      exact step [] (hcons []) hcons (by rw [← hcons]; exact hf)
    | some mode0 =>
      cases h1 : RobotLayer.collectSwitches cfg r c0.name mode0 c0.resources [] with
      | none =>
        refine ⟨[], c0, rest, rfl, rfl, ⟨mode0, h0, h1⟩, ?_⟩
        simp only [RobotLayer.startHandles, h0, h1]
      | some to_switch =>
        have hcons : ∀ l, RobotLayer.startHandles cfg r (c0 :: l) sm
            = RobotLayer.startHandles cfg r l (sm.insert c0.name to_switch) := by
          intro l
          rw [RobotLayer.startHandles, h0]
          dsimp only
          rw [h1]
        exact step to_switch (hcons []) hcons (by rw [← hcons]; exact hf)

theorem RobotLayer.checkStopList_false (sm : SwitchMap) (stop_list : List ControllerInfo)
    (h : RobotLayer.checkStopList sm stop_list = false) :
    ∃ c ∈ stop_list, sm.lookup c.name = none := by
  induction stop_list with
  | nil => cases h
  | cons c0 rest ih =>
    unfold RobotLayer.checkStopList at h
    by_cases h0 : (sm.lookup c0.name).isNone = true
    · exact ⟨c0, List.mem_cons_self _ _, Option.isNone_iff_eq_none.mp h0⟩
    · rw [if_neg h0] at h
      obtain ⟨c, hc, hn⟩ := ih h
      exact ⟨c, List.mem_cons_of_mem _ hc, hn⟩

theorem SwitchMap.lookup_append_left (sm added : SwitchMap) (name : String)
    (v : SwitchContainer) (h : sm.lookup name = some v) :
    (sm ++ added).lookup name = some v := by
  rw [List.lookup_append, h]
  rfl

/-- C8: when the stop list names a controller without a record in the switch table,
prepareSwitch returns false and leaves the whole coordinator state as it was: the table,
the joint table, every HandleLayer (mode, selected handle, forwarding flag, overlay
limits, the calls its actuator received) and the stop requests. -/
theorem prepareSwitch_unknown_stop_controller (cfg : Config)
    (start_list stop_list : List ControllerInfo) (r : RobotLayer)
    (h : ∃ c ∈ stop_list, r.switch_map_.lookup c.name = none) :
    RobotLayer.prepareSwitch cfg start_list stop_list r = (false, r) := by
  unfold RobotLayer.prepareSwitch
  rw [RobotLayer.checkStopList_unknown _ _ h]
  rfl

/-- C8 at a concrete batch: controller C2 is to be stopped on a robot whose switch table is empty. -/
theorem prepareSwitch_unknown_stop_controller_witness :
    (∃ c ∈ [({ name := "C2", resources := ["B"] } : ControllerInfo)],
        exampleRobot.switch_map_.lookup c.name = none)
    ∧ RobotLayer.prepareSwitch exampleConfig [{ name := "C", resources := ["A"] }]
        [{ name := "C2", resources := ["B"] }] exampleRobot = (false, exampleRobot) :=
  ⟨⟨_, List.mem_cons_self _ _, by decide⟩,
   prepareSwitch_unknown_stop_controller exampleConfig [{ name := "C", resources := ["A"] }]
     [{ name := "C2", resources := ["B"] }] exampleRobot
     ⟨_, List.mem_cons_self _ _, by decide⟩⟩

/-- C2: when some joint claimed by a starting controller that declares a required drive
mode classifies as NotSupported or NotReadyToSwitch, prepareSwitch returns false and no
HandleLayer changes (no call reaches any actuator; selected handle, forwarding flag and
overlay limits of every joint are as before), nor do the joint table or the stop
requests. -/
theorem prepareSwitch_rejected_joint (cfg : Config)
    (start_list stop_list : List ControllerInfo) (r : RobotLayer)
    (c : ControllerInfo) (mode : Int) (j : String) (p : HandlePtr)
    (hc : c ∈ start_list) (hmode : cfg.required_drive_mode c.name = some mode)
    (hj : j ∈ c.resources) (hp : r.handles_.lookup j = some p)
    (hbad : (r.heap p).canSwitch mode = CanSwitchResult.NotSupported
        ∨ (r.heap p).canSwitch mode = CanSwitchResult.NotReadyToSwitch) :
    (RobotLayer.prepareSwitch cfg start_list stop_list r).1 = false
    ∧ (RobotLayer.prepareSwitch cfg start_list stop_list r).2.heap = r.heap
    ∧ (RobotLayer.prepareSwitch cfg start_list stop_list r).2.handles_ = r.handles_
    ∧ (RobotLayer.prepareSwitch cfg start_list stop_list r).2.stop_requests
        = r.stop_requests := by
  have hs : (RobotLayer.startHandles cfg r start_list r.switch_map_).1 = false :=
    RobotLayer.startHandles_bad cfg r start_list _
      ⟨c, hc, mode, hmode, RobotLayer.collectSwitches_bad cfg r c.name mode c.resources []
        ⟨j, hj, p, hp, hbad⟩⟩
  unfold RobotLayer.prepareSwitch
  by_cases h0 : (!RobotLayer.checkStopList r.switch_map_ stop_list) = true
  · rw [if_pos h0]
    exact ⟨rfl, rfl, rfl, rfl⟩
  · rw [if_neg h0]
    dsimp only
    rw [hs]
    exact ⟨rfl, rfl, rfl, rfl⟩

/-- C2 at a concrete batch: C starts on joint A, C2 on joints A and B, and the drive of B is halted. -/
theorem prepareSwitch_rejected_joint_witness :
    ({ name := "C2", resources := ["A", "B"] } : ControllerInfo)
        ∈ [({ name := "C", resources := ["A"] } : ControllerInfo),
           { name := "C2", resources := ["A", "B"] }]
    ∧ exampleConfig.required_drive_mode "C2" = some Profiled_Position
    ∧ "B" ∈ ["A", "B"]
    ∧ notReadyRobot.handles_.lookup "B" = some 1
    ∧ (notReadyRobot.heap 1).canSwitch Profiled_Position = CanSwitchResult.NotReadyToSwitch
    ∧ (RobotLayer.prepareSwitch exampleConfig
        [{ name := "C", resources := ["A"] }, { name := "C2", resources := ["A", "B"] }] []
        notReadyRobot).1 = false
    ∧ (RobotLayer.prepareSwitch exampleConfig
        [{ name := "C", resources := ["A"] }, { name := "C2", resources := ["A", "B"] }] []
        notReadyRobot).2.heap = notReadyRobot.heap :=
  have h := prepareSwitch_rejected_joint exampleConfig
    [{ name := "C", resources := ["A"] }, { name := "C2", resources := ["A", "B"] }] []
    notReadyRobot { name := "C2", resources := ["A", "B"] } Profiled_Position "B" 1
    (by decide) (by decide) (by decide) (by decide) (Or.inr (by decide))
  ⟨by decide, by decide, by decide, by decide, by decide, h.1, h.2.1⟩

/-- C7 (the claim fails): the batch that starts C on joint A and C2 on joints A and B,
with the drive of B not Ready, is refused (prepareSwitch returns false), yet the switch
table, which had no record for C, now holds one. -/
theorem prepareSwitch_failure_changes_table :
    (RobotLayer.prepareSwitch exampleConfig
        [{ name := "C", resources := ["A"] }, { name := "C2", resources := ["A", "B"] }] []
        notReadyRobot).1 = false
    ∧ notReadyRobot.switch_map_.lookup "C" = none
    ∧ ((RobotLayer.prepareSwitch exampleConfig
        [{ name := "C", resources := ["A"] }, { name := "C2", resources := ["A", "B"] }] []
        notReadyRobot).2.switch_map_.lookup "C").isSome = true
    ∧ (RobotLayer.prepareSwitch exampleConfig
        [{ name := "C", resources := ["A"] }, { name := "C2", resources := ["A", "B"] }] []
        notReadyRobot).2.switch_map_ ≠ notReadyRobot.switch_map_ := by
  decide

/-- C7 (amended): whenever prepareSwitch returns false, no HandleLayer has changed (no
actuator call, same selected handle, forwarding flag and limits), the joint table and the
stop requests are as before, and every record the table held before the call is still
found unchanged. Either a name of the stop list has no record and the table is exactly
the table from before the call; or the start list splits into controllers that all
passed the validation, the first controller that fails it, and the rest, and the table is
the table from before the call followed by records added for controllers validated before
the failing one, each under the name of such a controller and holding the list built for
it in this call. When the first starting controller is the failing one nothing is added:
the table is exactly the table from before the call. -/
theorem prepareSwitch_failure_effects (cfg : Config)
    (start_list stop_list : List ControllerInfo) (r : RobotLayer)
    (hf : (RobotLayer.prepareSwitch cfg start_list stop_list r).1 = false) :
    (RobotLayer.prepareSwitch cfg start_list stop_list r).2.heap = r.heap
    ∧ (RobotLayer.prepareSwitch cfg start_list stop_list r).2.handles_ = r.handles_
    ∧ (RobotLayer.prepareSwitch cfg start_list stop_list r).2.stop_requests = r.stop_requests
    ∧ (∃ added : SwitchMap,
        (RobotLayer.prepareSwitch cfg start_list stop_list r).2.switch_map_
          = r.switch_map_ ++ added
        ∧ ∀ e ∈ added, ∃ c ∈ start_list, c.name = e.1)
    ∧ (∀ name v, r.switch_map_.lookup name = some v →
        (RobotLayer.prepareSwitch cfg start_list stop_list r).2.switch_map_.lookup name
          = some v)
    ∧ (((∃ c ∈ stop_list, r.switch_map_.lookup c.name = none)
          ∧ (RobotLayer.prepareSwitch cfg start_list stop_list r).2.switch_map_
              = r.switch_map_)
        ∨ (∃ pre c post, start_list = pre ++ c :: post
            ∧ (∀ c1 ∈ pre, ¬ RobotLayer.FailsValidation cfg r c1)
            ∧ RobotLayer.FailsValidation cfg r c
            ∧ ∃ added : SwitchMap,
                (RobotLayer.prepareSwitch cfg start_list stop_list r).2.switch_map_
                  = r.switch_map_ ++ added
                ∧ (∀ e ∈ added, ∃ c1 ∈ pre, c1.name = e.1
                    ∧ e.2 = RobotLayer.builtRequests cfg r c1)
                ∧ (pre = [] → added = []))) := by
  obtain ⟨added, hadd, hkeys⟩ := RobotLayer.startHandles_extends cfg r start_list r.switch_map_
  unfold RobotLayer.prepareSwitch at hf ⊢
  by_cases h0 : (!RobotLayer.checkStopList r.switch_map_ stop_list) = true
  · rw [if_pos h0]
    refine ⟨rfl, rfl, rfl, ⟨[], by simp, by simp⟩, fun _ _ h => h, Or.inl ⟨?_, rfl⟩⟩
    exact RobotLayer.checkStopList_false _ _ (by simpa using h0)
  · rw [if_neg h0] at hf ⊢
    dsimp only at hf ⊢
    by_cases h1 : (!(RobotLayer.startHandles cfg r start_list r.switch_map_).1) = true
    · rw [if_pos h1]
      refine ⟨rfl, rfl, rfl, ⟨added, hadd, hkeys⟩, ?_, Or.inr ?_⟩
      · intro name v hv
        show (RobotLayer.startHandles cfg r start_list r.switch_map_).2.lookup name = some v
        rw [hadd]
        exact SwitchMap.lookup_append_left _ _ _ _ hv
      · obtain ⟨pre, c, post, hsplit, hpre, hfail, heq⟩ :=
          RobotLayer.startHandles_split cfg r start_list r.switch_map_ (by simpa using h1)
        obtain ⟨add2, hadd2, hk2⟩ := RobotLayer.startHandles_added cfg r pre r.switch_map_ hpre
        refine ⟨pre, c, post, hsplit, ?_, hfail, add2, ?_, hk2, ?_⟩
        · intro c1 hc1 hbad
          obtain ⟨mode, hm, hn⟩ := hbad
          have := RobotLayer.startHandles_bad cfg r pre r.switch_map_ ⟨c1, hc1, mode, hm, hn⟩
          rw [this] at hpre
          cases hpre
        · show (RobotLayer.startHandles cfg r start_list r.switch_map_).2 = _
          rw [heq, hadd2]
        · intro hnil
          subst hnil
          exact List.self_eq_append_right.mp hadd2
    · rw [if_neg h1] at hf
      cases hf

/-- C7 (amended) at the batch of the counterexample: the table after the refused call is
the table from before followed by records of controllers validated before the failing
one. -/
theorem prepareSwitch_failure_effects_witness :
    (RobotLayer.prepareSwitch exampleConfig
        [{ name := "C", resources := ["A"] }, { name := "C2", resources := ["A", "B"] }] []
        notReadyRobot).1 = false
    ∧ (RobotLayer.prepareSwitch exampleConfig
        [{ name := "C", resources := ["A"] }, { name := "C2", resources := ["A", "B"] }] []
        notReadyRobot).2.heap = notReadyRobot.heap
    ∧ (RobotLayer.prepareSwitch exampleConfig
        [{ name := "C", resources := ["A"] }, { name := "C2", resources := ["A", "B"] }] []
        notReadyRobot).2.switch_map_
        = notReadyRobot.switch_map_
          ++ [("C", RobotLayer.builtRequests exampleConfig notReadyRobot
                      { name := "C", resources := ["A"] })] :=
  ⟨by decide,
   (prepareSwitch_failure_effects exampleConfig
      [{ name := "C", resources := ["A"] }, { name := "C2", resources := ["A", "B"] }] []
      notReadyRobot (by decide)).1,
   by decide⟩

/-- C3 (the code at the failing input): the record of controller C lists joint A
(handle 0) and then joint B (handle 1) for profiled position; A is in that mode, the
drive of B reports No_Mode. doSwitch puts C on the failure list, but joint A, processed
before the failing joint, is not driven to No_Mode: its actuator received no call and is
still in profiled position, its position handle is still selected and forwarding is
enabled. Only the failing joint B had switchMode(No_Mode) called on it. -/
theorem doSwitch_failure_keeps_earlier_joint_active :
    (RobotLayer.doSwitch [{ name := "C", resources := ["A", "B"] }] []
        droppedRobot).stop_requests = [["C"]]
    ∧ ((RobotLayer.doSwitch [{ name := "C", resources := ["A", "B"] }] []
        droppedRobot).heap 0).motor_.getMode = Profiled_Position
    ∧ ((RobotLayer.doSwitch [{ name := "C", resources := ["A", "B"] }] []
        droppedRobot).heap 0).motor_.calls = []
    ∧ ((RobotLayer.doSwitch [{ name := "C", resources := ["A", "B"] }] []
        droppedRobot).heap 0).jh_ = some JointHandle.jph_
    ∧ ((RobotLayer.doSwitch [{ name := "C", resources := ["A", "B"] }] []
        droppedRobot).heap 0).forward_command_ = true
    ∧ ((RobotLayer.doSwitch [{ name := "C", resources := ["A", "B"] }] []
        droppedRobot).heap 1).jh_ = none := by
  decide

/-! ### A batch that starts one controller -/

theorem RobotLayer.collectSwitches_cons_ok (cfg : Config) (r : RobotLayer) (controller : String)
    (mode : Int) (j : String) (rest : List String) (acc : SwitchContainer) (p : HandlePtr)
    (hp : r.handles_.lookup j = some p)
    (hok : (r.heap p).canSwitch mode = CanSwitchResult.ReadyToSwitch
        ∨ (r.heap p).canSwitch mode = CanSwitchResult.NoNeedToSwitch) :
    RobotLayer.collectSwitches cfg r controller mode (j :: rest) acc
      = RobotLayer.collectSwitches cfg r controller mode rest
          (acc ++ [{ handle := p, mode := mode,
                     limits := RobotLayer.switchLimits cfg controller j (r.heap p) }]) := by
  rw [RobotLayer.collectSwitches]
  rcases hok with h | h <;> simp only [hp, h]

theorem RobotLayer.prepareSwitch_single (cfg : Config) (r : RobotLayer) (c : ControllerInfo)
    (m : Int) (to_switch : SwitchContainer)
    (hmode : cfg.required_drive_mode c.name = some m)
    (hnew : r.switch_map_.lookup c.name = none)
    (hcol : RobotLayer.collectSwitches cfg r c.name m c.resources [] = some to_switch) :
    RobotLayer.prepareSwitch cfg [c] [] r
      = (true,
         RobotLayer.finishSwitch
           { r with switch_map_ := r.switch_map_ ++ [(c.name, to_switch)] }
           (RobotLayer.switchJoints c.name to_switch to_switch
              { heap := RobotLayer.stopAll to_switch r.heap, to_stop := [],
                failed_controllers := [], events := [] })) := by
  have hat : SwitchMap.atName (r.switch_map_ ++ [(c.name, to_switch)]) c.name = to_switch := by
    simp [SwitchMap.atName, List.lookup_append, hnew, List.lookup_cons]
  simp only [RobotLayer.prepareSwitch, RobotLayer.checkStopList, RobotLayer.startHandles, hmode,
    hcol, SwitchMap.insert, hnew, RobotLayer.switchingPass, RobotLayer.performSwitches,
    RobotLayer.collectToStop]
  simp [hat]

theorem RobotLayer.doSwitch_single (r : RobotLayer) (c : ControllerInfo)
    (to_switch : SwitchContainer) (hrec : r.switch_map_.lookup c.name = some to_switch) :
    RobotLayer.doSwitch [c] [] r
      = (if (RobotLayer.forwardJoints c.name to_switch to_switch (r.heap, [])).2.isEmpty then
           { r with heap := (RobotLayer.forwardJoints c.name to_switch to_switch (r.heap, [])).1 }
         else
           RobotLayer.stopControllers
             { r with heap := (RobotLayer.forwardJoints c.name to_switch to_switch (r.heap, [])).1 }
             (RobotLayer.forwardJoints c.name to_switch to_switch (r.heap, [])).2) := by
  simp only [RobotLayer.doSwitch, RobotLayer.forwardControllers, hrec]

theorem HandleLayer.select_fields (h : HandleLayer) (m : OperationMode) :
    (h.select m).2.motor_ = h.motor_ ∧ (h.select m).2.commands_ = h.commands_
    ∧ (h.select m).2.forward_command_ = h.forward_command_ := by
  unfold HandleLayer.select
  split <;> exact ⟨rfl, rfl, rfl⟩

theorem HandleLayer.select_found (h : HandleLayer) (m : OperationMode) (ch : JointHandlePtr)
    (hl : h.commands_.lookup m = some ch) :
    h.select m = (true, { h with jh_ := ch }) := by
  simp only [HandleLayer.select, hl]

theorem HandleLayer.switchMode_commands (h : HandleLayer) (m : OperationMode) :
    (h.switchMode m).2.commands_ = h.commands_ := by
  unfold HandleLayer.switchMode
  dsimp only
  split
  · split
    · rfl
    · rw [(HandleLayer.select_fields _ _).2.1]
  · rw [(HandleLayer.select_fields _ _).2.1]

theorem HandleLayer.switchMode_same_mode (h : HandleLayer) (m : OperationMode)
    (hm : h.motor_.mode = m) :
    (h.switchMode m).2.motor_ = h.motor_
    ∧ (h.switchMode m).2.forward_command_ = h.forward_command_ := by
  unfold HandleLayer.switchMode
  rw [if_neg (by simpa [MotorBase.getMode] using hm)]
  exact ⟨(HandleLayer.select_fields _ _).1, (HandleLayer.select_fields _ _).2.2⟩

theorem HandleLayer.switchMode_enters (h : HandleLayer) (m : OperationMode)
    (ch : JointHandlePtr) (hacc : h.motor_.mode = m ∨ m ∉ h.motor_.rejected_modes)
    (hl : h.commands_.lookup m = some ch) :
    (h.switchMode m).1 = true ∧ (h.switchMode m).2.motor_.mode = m
    ∧ (h.switchMode m).2.jh_ = ch
    ∧ (h.switchMode m).2.motor_.rejected_modes = h.motor_.rejected_modes := by
  unfold HandleLayer.switchMode
  by_cases hm : h.motor_.mode = m
  · rw [if_neg (by simpa [MotorBase.getMode] using hm), HandleLayer.select_found _ _ _ hl]
    exact ⟨rfl, hm, rfl, rfl⟩
  · have hr : m ∉ h.motor_.rejected_modes := by
      rcases hacc with h1 | h1
      · exact absurd h1 hm
      · exact h1
    rw [if_pos (by simpa [MotorBase.getMode] using hm)]
    simp [MotorBase.enterModeAndWait, hr, HandleLayer.select, hl]

theorem HandleLayer.switchMode_rejected_modes (h : HandleLayer) (m : OperationMode) :
    (h.switchMode m).2.motor_.rejected_modes = h.motor_.rejected_modes := by
  unfold HandleLayer.switchMode
  dsimp only
  split
  · split
    · simp only [MotorBase.halt, MotorBase.enterModeAndWait]
      split <;> rfl
    · rw [(HandleLayer.select_fields _ _).1]
      simp only [MotorBase.enterModeAndWait]
      split <;> rfl
  · rw [(HandleLayer.select_fields _ _).1]

theorem HandleLayer.switchMode_canIdle (h : HandleLayer) (m : OperationMode)
    (hc : h.CanIdle) : (h.switchMode m).2.CanIdle := by
  unfold HandleLayer.CanIdle at hc ⊢
  rw [HandleLayer.switchMode_rejected_modes, HandleLayer.switchMode_commands]
  exact hc

theorem HandleLayer.switchMode_forward_off (h : HandleLayer) (m : OperationMode)
    (hm : h.motor_.getMode ≠ m) : (h.switchMode m).2.forward_command_ = false := by
  unfold HandleLayer.switchMode
  rw [if_pos hm]
  dsimp only
  split
  · rfl
  · rw [(HandleLayer.select_fields _ _).2.2]

theorem HandleLayer.switchMode_rejects (h : HandleLayer) (m : OperationMode)
    (hm : h.motor_.getMode ≠ m) (hr : m ∈ h.motor_.rejected_modes) :
    (h.switchMode m).1 = false := by
  unfold HandleLayer.switchMode
  rw [if_pos hm]
  simp [MotorBase.enterModeAndWait, hr]

theorem HandleLayer.switchMode_idle (h : HandleLayer) (hc : h.CanIdle)
    (hf : h.motor_.getMode ≠ No_Mode ∨ h.forward_command_ = false) :
    (h.switchMode No_Mode).2.Idle := by
  obtain ⟨hacc, hl⟩ := hc
  obtain ⟨-, hmode, hjh, -⟩ :=
    HandleLayer.switchMode_enters h No_Mode none (Or.inr hacc) hl
  refine ⟨hmode, hjh, ?_⟩
  by_cases hm : h.motor_.getMode = No_Mode
  · rw [(HandleLayer.switchMode_same_mode h No_Mode hm).2]
    rcases hf with h1 | h1
    · exact absurd hm h1
    · exact h1
  · exact HandleLayer.switchMode_forward_off h No_Mode hm

theorem HandleLayer.setOverlayLimits_idle (h : HandleLayer) (l : Limits) (hi : h.Idle) :
    (h.setOverlayLimits l).Idle := hi

theorem HandleLayer.forwardForMode_other (h : HandleLayer) (m : OperationMode)
    (hm : h.motor_.getMode ≠ m) : h.forwardForMode m = (false, h) := by
  unfold HandleLayer.forwardForMode
  rw [if_neg hm]

theorem HandleLayer.switchMode_idle_again (h : HandleLayer) (hc : h.CanIdle) (hi : h.Idle) :
    (h.switchMode No_Mode).2.Idle :=
  HandleLayer.switchMode_idle h hc (Or.inr hi.2.2)

theorem HandleLayer.canSwitch_registered (h : HandleLayer) (m : OperationMode)
    (hok : h.canSwitch m = CanSwitchResult.ReadyToSwitch
        ∨ h.canSwitch m = CanSwitchResult.NoNeedToSwitch) :
    ∃ ch, h.commands_.lookup m = some ch := by
  cases hl : h.commands_.lookup m with
  | some ch => exact ⟨ch, rfl⟩
  | none =>
    have : h.canSwitch m = CanSwitchResult.NotSupported := by
      simp [HandleLayer.canSwitch, hl]
    rw [this] at hok
    rcases hok with h1 | h1 <;> cases h1

/-- C1 (the claim fails): controller C starts on the joints A and B, the drive of A
accepts profiled position, the drive of B rejects it, both accept No_Mode. After
prepareSwitch and doSwitch both joints are idle, but the stop of C has been requested
twice: prepareSwitch and doSwitch each hand a list holding the name to stopControllers,
so the name occurs twice, not once, among the controllers requested to be stopped. -/
theorem rollback_requests_stop_twice :
    (Profiled_Position ∉ (rejectingRobot.heap 0).motor_.rejected_modes
      ∧ Profiled_Position ∈ (rejectingRobot.heap 1).motor_.rejected_modes
      ∧ No_Mode ∉ (rejectingRobot.heap 0).motor_.rejected_modes
      ∧ No_Mode ∉ (rejectingRobot.heap 1).motor_.rejected_modes)
    ∧ (RobotLayer.prepareSwitch exampleConfig [{ name := "C", resources := ["A", "B"] }] []
        rejectingRobot).1 = true
    ∧ (RobotLayer.prepareSwitch exampleConfig [{ name := "C", resources := ["A", "B"] }] []
        rejectingRobot).2.stop_requests = [["C"]]
    ∧ (RobotLayer.doSwitch [{ name := "C", resources := ["A", "B"] }] []
        (RobotLayer.prepareSwitch exampleConfig [{ name := "C", resources := ["A", "B"] }] []
          rejectingRobot).2).stop_requests = [["C"], ["C"]]
    ∧ List.count "C" (RobotLayer.doSwitch [{ name := "C", resources := ["A", "B"] }] []
        (RobotLayer.prepareSwitch exampleConfig [{ name := "C", resources := ["A", "B"] }] []
          rejectingRobot).2).stop_requests.flatten = 2
    ∧ List.count "C" (RobotLayer.doSwitch [{ name := "C", resources := ["A", "B"] }] []
        (RobotLayer.prepareSwitch exampleConfig [{ name := "C", resources := ["A", "B"] }] []
          rejectingRobot).2).stop_requests.flatten ≠ 1 := by
  decide

/-- C1 (amended): a batch that starts one controller on the joints A and then B (no
earlier record under its name), both joints passing the validation, the actuator of A
accepting the requested mode, the actuator of B rejecting it, both accepting No_Mode.
prepareSwitch returns true, leaves A and B idle (actuator in No_Mode, no command handle
selected, forwarding disabled) and hands to stopControllers one list, which holds the
controller name exactly once. After the following doSwitch A and B are still idle, and
doSwitch has handed to stopControllers one more list, which again holds the name exactly
once: over the prepare/commit pass the stop of the controller is requested twice. -/
theorem rollback_on_rejected_joint (cfg : Config) (r : RobotLayer) (c : ControllerInfo)
    (m : Int) (jA jB : String) (pA pB : HandlePtr)
    (hres : c.resources = [jA, jB])
    (hA : r.handles_.lookup jA = some pA) (hB : r.handles_.lookup jB = some pB)
    (hne : pA ≠ pB)
    (hmode : cfg.required_drive_mode c.name = some m)
    (hnew : r.switch_map_.lookup c.name = none)
    (hokA : (r.heap pA).canSwitch m = CanSwitchResult.ReadyToSwitch
        ∨ (r.heap pA).canSwitch m = CanSwitchResult.NoNeedToSwitch)
    (hokB : (r.heap pB).canSwitch m = CanSwitchResult.ReadyToSwitch
        ∨ (r.heap pB).canSwitch m = CanSwitchResult.NoNeedToSwitch)
    (haccA : m ∉ (r.heap pA).motor_.rejected_modes)
    (hrejB : m ∈ (r.heap pB).motor_.rejected_modes)
    (hidleA : (r.heap pA).CanIdle) (hidleB : (r.heap pB).CanIdle) :
    (RobotLayer.prepareSwitch cfg [c] [] r).1 = true
    ∧ ((RobotLayer.prepareSwitch cfg [c] [] r).2.heap pA).Idle
    ∧ ((RobotLayer.prepareSwitch cfg [c] [] r).2.heap pB).Idle
    ∧ (RobotLayer.prepareSwitch cfg [c] [] r).2.stop_requests = r.stop_requests ++ [[c.name]]
    ∧ ((RobotLayer.doSwitch [c] [] (RobotLayer.prepareSwitch cfg [c] [] r).2).heap pA).Idle
    ∧ ((RobotLayer.doSwitch [c] [] (RobotLayer.prepareSwitch cfg [c] [] r).2).heap pB).Idle
    ∧ (RobotLayer.doSwitch [c] [] (RobotLayer.prepareSwitch cfg [c] [] r).2).stop_requests
        = r.stop_requests ++ [[c.name], [c.name]]
    ∧ (∀ l ∈ (RobotLayer.doSwitch [c] []
          (RobotLayer.prepareSwitch cfg [c] [] r).2).stop_requests.drop r.stop_requests.length,
        List.count c.name l = 1)
    ∧ List.count c.name ((RobotLayer.doSwitch [c] []
          (RobotLayer.prepareSwitch cfg [c] [] r).2).stop_requests.drop
            r.stop_requests.length).flatten = 2 := by
  have hmne : m ≠ No_Mode := fun h => hidleB.1 (h ▸ hrejB)
  have hcol : RobotLayer.collectSwitches cfg r c.name m c.resources []
      = some [{ handle := pA, mode := m,
                limits := RobotLayer.switchLimits cfg c.name jA (r.heap pA) },
              { handle := pB, mode := m,
                limits := RobotLayer.switchLimits cfg c.name jB (r.heap pB) }] := by
    rw [hres, RobotLayer.collectSwitches_cons_ok cfg r c.name m jA [jB] [] pA hA hokA,
      RobotLayer.collectSwitches_cons_ok cfg r c.name m jB [] _ pB hB hokB]
    rfl
  obtain ⟨chA, hregA⟩ := HandleLayer.canSwitch_registered _ _ hokA
  -- joint A: stopped, then switched to m
  have hA1c := HandleLayer.switchMode_canIdle (r.heap pA) No_Mode hidleA
  obtain ⟨hA2ok, hA2mode, -, -⟩ := HandleLayer.switchMode_enters
    ((r.heap pA).switchMode No_Mode).2 m chA
    (Or.inr (by rw [HandleLayer.switchMode_rejected_modes]; exact haccA))
    (by rw [HandleLayer.switchMode_commands]; exact hregA)
  have hA2c := HandleLayer.switchMode_canIdle _ m hA1c
  have hA3 := HandleLayer.switchMode_idle _ hA2c
    (Or.inl (by rw [MotorBase.getMode, hA2mode]; exact hmne))
  -- joint B: stopped, then the entry into m is rejected
  have hB1c := HandleLayer.switchMode_canIdle (r.heap pB) No_Mode hidleB
  obtain ⟨-, hB1mode, -, -⟩ := HandleLayer.switchMode_enters (r.heap pB) No_Mode none
    (Or.inr hidleB.1) hidleB.2
  have hB1ne : ((r.heap pB).switchMode No_Mode).2.motor_.getMode ≠ m := by
    rw [MotorBase.getMode, hB1mode]; exact fun h => hmne h.symm
  have hB2rej := HandleLayer.switchMode_rejects ((r.heap pB).switchMode No_Mode).2 m hB1ne
    (by rw [HandleLayer.switchMode_rejected_modes]; exact hrejB)
  have hB2off := HandleLayer.switchMode_forward_off _ m hB1ne
  have hB2c := HandleLayer.switchMode_canIdle _ m hB1c
  have hB3 := HandleLayer.switchMode_idle _ hB2c (Or.inr hB2off)
  have hBA : pB ≠ pA := fun h => hne h.symm
  rw [RobotLayer.prepareSwitch_single cfg r c m _ hmode hnew hcol]
  simp only [RobotLayer.switchJoints, RobotLayer.stopAll, Function.update_same,
    Function.update_noteq hne, Function.update_noteq hBA, hA2ok, hB2rej,
    Bool.not_true, Bool.not_false, Bool.false_eq_true, if_false, if_true,
    RobotLayer.finishSwitch, RobotLayer.forceIdle, setErase, setInsert, List.filter_nil,
    List.foldl_cons, List.foldl_nil, List.not_mem_nil, List.nil_append, List.mem_singleton,
    List.isEmpty_cons, List.singleton_append, RobotLayer.stopControllers, hne, hBA]
  have hfA := HandleLayer.setOverlayLimits_idle _ Limits.empty hA3
  have hfB := HandleLayer.setOverlayLimits_idle _ Limits.empty hB3
  have hfAc : (((((r.heap pA).switchMode No_Mode).2.switchMode m).2.switchMode
      No_Mode).2.setOverlayLimits Limits.empty).CanIdle :=
    HandleLayer.switchMode_canIdle _ No_Mode hA2c
  have hfAne : (((((r.heap pA).switchMode No_Mode).2.switchMode m).2.switchMode
      No_Mode).2.setOverlayLimits Limits.empty).motor_.getMode ≠ m := by
    rw [hfA.1]; exact fun h => hmne h.symm
  have hgA := HandleLayer.switchMode_idle_again _ hfAc hfA
  have hgAc := HandleLayer.switchMode_canIdle _ No_Mode hfAc
  have hkA := HandleLayer.switchMode_idle_again _ hgAc hgA
  rw [RobotLayer.doSwitch_single _ c
    [{ handle := pA, mode := m, limits := RobotLayer.switchLimits cfg c.name jA (r.heap pA) },
     { handle := pB, mode := m, limits := RobotLayer.switchLimits cfg c.name jB (r.heap pB) }]
    (by simp [List.lookup_append, hnew, List.lookup_cons])]
  simp only [RobotLayer.forwardJoints, Function.update_same, Function.update_noteq hne,
    Function.update_noteq hBA, HandleLayer.forwardForMode_other _ _ hfAne,
    Bool.not_false, if_true, List.foldl_cons, List.foldl_nil, List.nil_append,
    List.isEmpty_cons, Bool.false_eq_true, if_false, RobotLayer.stopControllers,
    List.append_assoc, List.singleton_append]
  refine ⟨trivial, hfA, hfB, trivial, hkA, hfB, trivial, ?_, ?_⟩
  · intro l hl
    rw [List.drop_left] at hl
    rcases List.mem_cons.mp hl with h | h
    · rw [h]; simp
    · rw [List.mem_singleton.mp h]; simp
  · rw [List.drop_left]
    simp

/-- C1 (amended) at a concrete batch: controller C starts on the joints A and B, and the drive of B rejects profiled position. -/
theorem rollback_on_rejected_joint_witness :
    (RobotLayer.prepareSwitch exampleConfig [{ name := "C", resources := ["A", "B"] }] []
        rejectingRobot).1 = true
    ∧ ((RobotLayer.doSwitch [{ name := "C", resources := ["A", "B"] }] []
        (RobotLayer.prepareSwitch exampleConfig [{ name := "C", resources := ["A", "B"] }] []
          rejectingRobot).2).heap 0).Idle
    ∧ ((RobotLayer.doSwitch [{ name := "C", resources := ["A", "B"] }] []
        (RobotLayer.prepareSwitch exampleConfig [{ name := "C", resources := ["A", "B"] }] []
          rejectingRobot).2).heap 1).Idle
    ∧ (RobotLayer.doSwitch [{ name := "C", resources := ["A", "B"] }] []
        (RobotLayer.prepareSwitch exampleConfig [{ name := "C", resources := ["A", "B"] }] []
          rejectingRobot).2).stop_requests = [["C"], ["C"]] :=
  have h := rollback_on_rejected_joint exampleConfig rejectingRobot
    { name := "C", resources := ["A", "B"] } Profiled_Position "A" "B" 0 1 rfl
    (by decide) (by decide) (by decide) (by decide) (by decide)
    (Or.inl (by decide)) (Or.inl (by decide)) (by decide) (by decide)
    ⟨by decide, by decide⟩ ⟨by decide, by decide⟩
  ⟨h.1, h.2.2.2.2.1, h.2.2.2.2.2.1, h.2.2.2.2.2.2.1⟩

/-! ### The set to_stop of the switching pass -/

theorem mem_setInsert (s : List HandlePtr) (p q : HandlePtr) :
    q ∈ setInsert s p ↔ q ∈ s ∨ q = p := by
  unfold setInsert
  split
  · constructor
    · exact Or.inl
    · rintro (h | h)
      · exact h
      · subst h; assumption
  · simp

theorem nodup_setInsert (s : List HandlePtr) (p : HandlePtr) (hs : s.Nodup) :
    (setInsert s p).Nodup := by
  unfold setInsert
  split
  · exact hs
  · rename_i h
    exact List.nodup_append.mpr ⟨hs, List.nodup_singleton p, by
      intro a ha hb
      rw [List.mem_singleton] at hb
      subst hb
      exact h ha⟩

theorem mem_setErase (s : List HandlePtr) (p q : HandlePtr) :
    q ∈ setErase s p ↔ q ∈ s ∧ q ≠ p := by
  simp [setErase]

theorem nodup_setErase (s : List HandlePtr) (p : HandlePtr) (hs : s.Nodup) :
    (setErase s p).Nodup :=
  hs.filter _

theorem mem_foldl_setInsert (hs s : List HandlePtr) (q : HandlePtr) :
    q ∈ hs.foldl setInsert s ↔ q ∈ s ∨ q ∈ hs := by
  induction hs generalizing s with
  | nil => simp
  | cons a rest ih =>
    rw [List.foldl_cons, ih, mem_setInsert, List.mem_cons]
    tauto

theorem nodup_foldl_setInsert (hs s : List HandlePtr) (h : s.Nodup) :
    (hs.foldl setInsert s).Nodup := by
  induction hs generalizing s with
  | nil => exact h
  | cons a rest ih => exact ih _ (nodup_setInsert s a h)

theorem foldl_setInsert_handles (to_switch : SwitchContainer) (s : List HandlePtr) :
    to_switch.foldl (fun s x => setInsert s x.handle) s
      = (to_switch.map (fun x => x.handle)).foldl setInsert s := by
  rw [List.foldl_map]

theorem applyEvents_append (a b : List SwitchEvent) (s : List HandlePtr) :
    applyEvents (a ++ b) s = applyEvents b (applyEvents a s) := by
  induction a generalizing s with
  | nil => rfl
  | cons e rest ih => exact ih _

theorem nodup_applyEvents (evs : List SwitchEvent) (s : List HandlePtr) (h : s.Nodup) :
    (applyEvents evs s).Nodup := by
  induction evs generalizing s with
  | nil => exact h
  | cons e rest ih =>
    apply ih
    split
    · exact nodup_setErase s e.handle h
    · exact nodup_foldl_setInsert e.handles s h

theorem applyEvents_keeps (evs : List SwitchEvent) (s : List HandlePtr) (p : HandlePtr)
    (hp : p ∈ s) (hno : ∀ ev ∈ evs, ev.handle = p → ev.okay = false) :
    p ∈ applyEvents evs s := by
  induction evs generalizing s with
  | nil => exact hp
  | cons e rest ih =>
    have hrest : ∀ ev ∈ rest, ev.handle = p → ev.okay = false :=
      fun ev h => hno ev (List.mem_cons_of_mem _ h)
    apply ih _ _ hrest
    split
    · rename_i hok
      rw [mem_setErase]
      refine ⟨hp, ?_⟩
      intro h
      have hfalse := hno e (List.mem_cons_self _ _) h.symm
      rw [hfalse] at hok
      cases hok
    · rw [mem_foldl_setInsert]
      exact Or.inl hp

theorem applyEvents_stays_out (evs : List SwitchEvent) (s : List HandlePtr) (p : HandlePtr)
    (hp : p ∉ s) (hno : ∀ ev ∈ evs, ev.okay = false → p ∉ ev.handles) :
    p ∉ applyEvents evs s := by
  induction evs generalizing s with
  | nil => exact hp
  | cons e rest ih =>
    have hrest : ∀ ev ∈ rest, ev.okay = false → p ∉ ev.handles :=
      fun ev h => hno ev (List.mem_cons_of_mem _ h)
    apply ih _ _ hrest
    split
    · rw [mem_setErase]
      exact fun h => hp h.1
    · rename_i hok
      rw [mem_foldl_setInsert]
      rintro (h | h)
      · exact hp h
      · exact hno e (List.mem_cons_self _ _) (by simpa using hok) h

theorem applyEvents_after_switch (pre post : List SwitchEvent) (ev : SwitchEvent)
    (s : List HandlePtr) (hok : ev.okay = true)
    (hno : ∀ e ∈ post, e.okay = false → ev.handle ∉ e.handles) :
    ev.handle ∉ applyEvents (pre ++ ev :: post) s := by
  rw [applyEvents_append]
  apply applyEvents_stays_out post _ ev.handle _ hno
  rw [if_pos hok, mem_setErase]
  exact fun h => h.2 rfl

theorem RobotLayer.switchJoints_events (controller : String) (to_switch rest : SwitchContainer)
    (st : SwitchPass) :
    ∃ new, (RobotLayer.switchJoints controller to_switch rest st).events = st.events ++ new
      ∧ (RobotLayer.switchJoints controller to_switch rest st).to_stop
          = applyEvents new st.to_stop := by
  induction rest generalizing st with
  | nil => exact ⟨[], by simp [RobotLayer.switchJoints], rfl⟩
  | cons d rest ih =>
    unfold RobotLayer.switchJoints
    dsimp only
    cases hres : ((st.heap d.handle).switchMode d.mode).1 with
    | false =>
      refine ⟨[{ controller := controller, handle := d.handle,
                 handles := to_switch.map (fun x => x.handle), okay := false }], ?_, ?_⟩
      · simp
      · simp [applyEvents, foldl_setInsert_handles]
    | true =>
      obtain ⟨new, he, ht⟩ := ih
        { heap := Function.update st.heap d.handle ((st.heap d.handle).switchMode d.mode).2,
          to_stop := setErase st.to_stop d.handle,
          failed_controllers := st.failed_controllers,
          events := st.events ++ [{ controller := controller, handle := d.handle,
                                    handles := to_switch.map (fun x => x.handle),
                                    okay := true }] }
      refine ⟨{ controller := controller, handle := d.handle,
                handles := to_switch.map (fun x => x.handle), okay := true } :: new, ?_, ?_⟩
      · simp only [Bool.not_true, Bool.false_eq_true, if_false]
        rw [he]; simp
      · simp only [Bool.not_true, Bool.false_eq_true, if_false]
        rw [ht]; simp [applyEvents]

theorem RobotLayer.performSwitches_events (sm : SwitchMap) (start_list : List ControllerInfo)
    (st : SwitchPass) :
    ∃ new, (RobotLayer.performSwitches sm start_list st).events = st.events ++ new
      ∧ (RobotLayer.performSwitches sm start_list st).to_stop
          = applyEvents new st.to_stop := by
  induction start_list generalizing st with
  | nil => exact ⟨[], by simp [RobotLayer.performSwitches], rfl⟩
  | cons c rest ih =>
    unfold RobotLayer.performSwitches
    dsimp only
    obtain ⟨n1, he1, ht1⟩ := RobotLayer.switchJoints_events c.name (sm.atName c.name)
      (sm.atName c.name)
      { st with heap := RobotLayer.stopAll (sm.atName c.name) st.heap }
    obtain ⟨n2, he2, ht2⟩ := ih (RobotLayer.switchJoints c.name (sm.atName c.name)
      (sm.atName c.name) { st with heap := RobotLayer.stopAll (sm.atName c.name) st.heap })
    refine ⟨n1 ++ n2, ?_, ?_⟩
    · rw [he2, he1, List.append_assoc]
    · rw [ht2, ht1, applyEvents_append]

theorem RobotLayer.switchingPass_to_stop (sm : SwitchMap)
    (start_list stop_list : List ControllerInfo) (heap : Heap) :
    (RobotLayer.switchingPass sm start_list stop_list heap).to_stop
      = applyEvents (RobotLayer.switchingPass sm start_list stop_list heap).events
          (RobotLayer.collectToStop sm stop_list []) := by
  unfold RobotLayer.switchingPass
  obtain ⟨new, he, ht⟩ := RobotLayer.performSwitches_events sm start_list
    { heap := heap, to_stop := RobotLayer.collectToStop sm stop_list [],
      failed_controllers := [], events := [] }
  rw [ht, he]
  rfl

theorem RobotLayer.mem_collectToStop (sm : SwitchMap) (stop_list : List ControllerInfo)
    (s : List HandlePtr) (p : HandlePtr) :
    p ∈ RobotLayer.collectToStop sm stop_list s
      ↔ p ∈ s ∨ ∃ c ∈ stop_list, ∃ d ∈ sm.atName c.name, d.handle = p := by
  induction stop_list generalizing s with
  | nil => simp [RobotLayer.collectToStop]
  | cons c rest ih =>
    rw [RobotLayer.collectToStop, ih, foldl_setInsert_handles, mem_foldl_setInsert]
    simp only [List.mem_map, List.mem_cons, exists_eq_or_imp, or_assoc]

theorem RobotLayer.nodup_collectToStop (sm : SwitchMap) (stop_list : List ControllerInfo)
    (s : List HandlePtr) (h : s.Nodup) : (RobotLayer.collectToStop sm stop_list s).Nodup := by
  induction stop_list generalizing s with
  | nil => exact h
  | cons c rest ih =>
    rw [RobotLayer.collectToStop, foldl_setInsert_handles]
    exact ih _ (nodup_foldl_setInsert _ _ h)

theorem RobotLayer.forceIdle_mem (l : List HandlePtr) (heap : Heap) (p : HandlePtr)
    (hl : l.Nodup) (hp : p ∈ l) :
    RobotLayer.forceIdle l heap p
      = ((heap p).switchMode No_Mode).2.setOverlayLimits Limits.empty := by
  induction l generalizing heap with
  | nil => cases hp
  | cons q rest ih =>
    rw [RobotLayer.forceIdle]
    obtain ⟨hq, hrest⟩ := List.nodup_cons.mp hl
    rcases List.mem_cons.mp hp with h | h
    · subst h
      rw [RobotLayer.forceIdle_not_mem _ _ _ hq, Function.update_same]
    · have hne : p ≠ q := fun e => hq (e ▸ h)
      rw [ih _ hrest h, Function.update_noteq hne]

theorem RobotLayer.finishSwitch_heap (r : RobotLayer) (st : SwitchPass) :
    (RobotLayer.finishSwitch r st).heap = RobotLayer.forceIdle st.to_stop st.heap := by
  unfold RobotLayer.finishSwitch
  dsimp only
  split <;> rfl

theorem RobotLayer.prepareSwitch_true (cfg : Config)
    (start_list stop_list : List ControllerInfo) (r : RobotLayer)
    (hok : (RobotLayer.prepareSwitch cfg start_list stop_list r).1 = true) :
    RobotLayer.prepareSwitch cfg start_list stop_list r
      = (true, RobotLayer.finishSwitch
          { r with switch_map_ := (RobotLayer.startHandles cfg r start_list r.switch_map_).2 }
          (RobotLayer.switchingPass (RobotLayer.startHandles cfg r start_list r.switch_map_).2
            start_list stop_list r.heap)) := by
  unfold RobotLayer.prepareSwitch at hok ⊢
  by_cases h0 : (!RobotLayer.checkStopList r.switch_map_ stop_list) = true
  · rw [if_pos h0] at hok
    cases hok
  · rw [if_neg h0] at hok ⊢
    dsimp only at hok ⊢
    by_cases h1 : (!(RobotLayer.startHandles cfg r start_list r.switch_map_).1) = true
    · rw [if_pos h1] at hok
      cases hok
    · rw [if_neg h1]

theorem RobotLayer.nodup_switchingPass (sm : SwitchMap)
    (start_list stop_list : List ControllerInfo) (heap : Heap) :
    (RobotLayer.switchingPass sm start_list stop_list heap).to_stop.Nodup := by
  rw [RobotLayer.switchingPass_to_stop]
  exact nodup_applyEvents _ _ (RobotLayer.nodup_collectToStop _ _ _ List.nodup_nil)

/-- C5: in a batch that passes the validation (prepareSwitch returns true), take the calls
switchMode(it->mode) of the switching pass with the values they returned. A joint in the
record of a stopping controller on which no such call returned true is in to_stop after
the pass and is forced to Idle: its final state is the result of switchMode(No_Mode)
followed by setOverlayLimits(Limits()), so its overlay limits are the limits
Limits(limits_, Limits()) built from its baseline. A joint on which such a call returned
true, and that is in the record of no starting controller with a call returning false
after it, is not in to_stop, and the forcing loop leaves it as the switching pass left
it. -/
theorem stopped_joints_forced_idle (cfg : Config)
    (start_list stop_list : List ControllerInfo) (r : RobotLayer) (p : HandlePtr)
    (hok : (RobotLayer.prepareSwitch cfg start_list stop_list r).1 = true) :
    ((∃ c ∈ stop_list, ∃ to_switch, r.switch_map_.lookup c.name = some to_switch
          ∧ ∃ d ∈ to_switch, d.handle = p) →
      (∀ ev ∈ (RobotLayer.switchingPass (RobotLayer.startHandles cfg r start_list r.switch_map_).2
          start_list stop_list r.heap).events, ev.handle = p → ev.okay = false) →
      p ∈ (RobotLayer.switchingPass (RobotLayer.startHandles cfg r start_list r.switch_map_).2
          start_list stop_list r.heap).to_stop
      ∧ (RobotLayer.prepareSwitch cfg start_list stop_list r).2.heap p
          = (((RobotLayer.switchingPass (RobotLayer.startHandles cfg r start_list r.switch_map_).2
          start_list stop_list r.heap).heap p).switchMode No_Mode).2.setOverlayLimits Limits.empty
      ∧ ((RobotLayer.prepareSwitch cfg start_list stop_list r).2.heap p).motor_
          = (((RobotLayer.switchingPass (RobotLayer.startHandles cfg r start_list r.switch_map_).2
          start_list stop_list r.heap).heap p).switchMode No_Mode).2.motor_
      ∧ ((RobotLayer.prepareSwitch cfg start_list stop_list r).2.heap p).overlay_limits_
          = Limits.mk2 ((RobotLayer.switchingPass (RobotLayer.startHandles cfg r start_list r.switch_map_).2
          start_list stop_list r.heap).heap p).limits_ Limits.empty)
    ∧ (∀ pre ev post, (RobotLayer.switchingPass (RobotLayer.startHandles cfg r start_list r.switch_map_).2
          start_list stop_list r.heap).events = pre ++ ev :: post → ev.handle = p → ev.okay = true →
        (∀ e ∈ post, e.okay = false → p ∉ e.handles) →
        p ∉ (RobotLayer.switchingPass (RobotLayer.startHandles cfg r start_list r.switch_map_).2
          start_list stop_list r.heap).to_stop
        ∧ (RobotLayer.prepareSwitch cfg start_list stop_list r).2.heap p = (RobotLayer.switchingPass (RobotLayer.startHandles cfg r start_list r.switch_map_).2
          start_list stop_list r.heap).heap p) := by
  rw [RobotLayer.prepareSwitch_true cfg start_list stop_list r hok]
  simp only [RobotLayer.finishSwitch_heap]
  have hnd := RobotLayer.nodup_switchingPass
    (RobotLayer.startHandles cfg r start_list r.switch_map_).2 start_list stop_list r.heap
  constructor
  · rintro ⟨c, hc, to_switch, hrec, d, hd, hdp⟩ hno
    have hmem : p ∈ (RobotLayer.switchingPass (RobotLayer.startHandles cfg r start_list r.switch_map_).2
          start_list stop_list r.heap).to_stop := by
      rw [RobotLayer.switchingPass_to_stop]
      apply applyEvents_keeps _ _ _ _ hno
      rw [RobotLayer.mem_collectToStop]
      refine Or.inr ⟨c, hc, d, ?_, hdp⟩
      obtain ⟨added, hadd, -⟩ := RobotLayer.startHandles_extends cfg r start_list r.switch_map_
      rw [hadd, SwitchMap.atName, SwitchMap.lookup_append_left _ _ _ _ hrec]
      exact hd
    have hforce := RobotLayer.forceIdle_mem _ (RobotLayer.switchingPass (RobotLayer.startHandles cfg r start_list r.switch_map_).2
          start_list stop_list r.heap).heap p hnd hmem
    refine ⟨hmem, hforce, ?_, ?_⟩
    · rw [hforce]
      rfl
    · rw [hforce]
      show Limits.mk2 (((RobotLayer.switchingPass (RobotLayer.startHandles cfg r start_list r.switch_map_).2
          start_list stop_list r.heap).heap p).switchMode No_Mode).2.limits_ Limits.empty = _
      rw [HandleLayer.switchMode_limits]
  · intro pre ev post hev hp hevok hno
    have hout : p ∉ (RobotLayer.switchingPass (RobotLayer.startHandles cfg r start_list r.switch_map_).2
          start_list stop_list r.heap).to_stop := by
      rw [RobotLayer.switchingPass_to_stop, hev, ← hp]
      exact applyEvents_after_switch pre post ev _ hevok (by rw [hp]; exact hno)
    exact ⟨hout, RobotLayer.forceIdle_not_mem _ _ _ hout⟩

/-- C5 at a concrete batch: the controllers C (joint A) and D (joint B) stop, controller
C2 starts on joint A and its call of switchMode returns true. Joint B, handle 1, is
forced to Idle and its overlay is rebuilt from its baseline; joint A, handle 0, is not
forced to Idle and stays in profiled position. -/
theorem stopped_joints_forced_idle_witness :
    (RobotLayer.prepareSwitch exampleConfig [{ name := "C2", resources := ["A"] }]
        [{ name := "C", resources := ["A"] }, { name := "D", resources := ["B"] }]
        runningRobot).1 = true
    ∧ (1 ∈ (RobotLayer.switchingPass
        (RobotLayer.startHandles exampleConfig runningRobot
          [{ name := "C2", resources := ["A"] }] runningRobot.switch_map_).2
        [{ name := "C2", resources := ["A"] }]
        [{ name := "C", resources := ["A"] }, { name := "D", resources := ["B"] }]
        runningRobot.heap).to_stop
      ∧ ((RobotLayer.prepareSwitch exampleConfig [{ name := "C2", resources := ["A"] }]
          [{ name := "C", resources := ["A"] }, { name := "D", resources := ["B"] }]
          runningRobot).2.heap 1).motor_.getMode = No_Mode
      ∧ ((RobotLayer.prepareSwitch exampleConfig [{ name := "C2", resources := ["A"] }]
          [{ name := "C", resources := ["A"] }, { name := "D", resources := ["B"] }]
          runningRobot).2.heap 1).overlay_limits_
          = Limits.mk2 ((RobotLayer.switchingPass
        (RobotLayer.startHandles exampleConfig runningRobot
          [{ name := "C2", resources := ["A"] }] runningRobot.switch_map_).2
        [{ name := "C2", resources := ["A"] }]
        [{ name := "C", resources := ["A"] }, { name := "D", resources := ["B"] }]
        runningRobot.heap).heap 1).limits_ Limits.empty)
    ∧ (0 ∉ (RobotLayer.switchingPass
        (RobotLayer.startHandles exampleConfig runningRobot
          [{ name := "C2", resources := ["A"] }] runningRobot.switch_map_).2
        [{ name := "C2", resources := ["A"] }]
        [{ name := "C", resources := ["A"] }, { name := "D", resources := ["B"] }]
        runningRobot.heap).to_stop
      ∧ (RobotLayer.prepareSwitch exampleConfig [{ name := "C2", resources := ["A"] }]
          [{ name := "C", resources := ["A"] }, { name := "D", resources := ["B"] }]
          runningRobot).2.heap 0 = (RobotLayer.switchingPass
        (RobotLayer.startHandles exampleConfig runningRobot
          [{ name := "C2", resources := ["A"] }] runningRobot.switch_map_).2
        [{ name := "C2", resources := ["A"] }]
        [{ name := "C", resources := ["A"] }, { name := "D", resources := ["B"] }]
        runningRobot.heap).heap 0
      ∧ ((RobotLayer.prepareSwitch exampleConfig [{ name := "C2", resources := ["A"] }]
          [{ name := "C", resources := ["A"] }, { name := "D", resources := ["B"] }]
          runningRobot).2.heap 0).motor_.getMode = Profiled_Position) :=
  have hev : (RobotLayer.switchingPass
        (RobotLayer.startHandles exampleConfig runningRobot
          [{ name := "C2", resources := ["A"] }] runningRobot.switch_map_).2
        [{ name := "C2", resources := ["A"] }]
        [{ name := "C", resources := ["A"] }, { name := "D", resources := ["B"] }]
        runningRobot.heap).events
      = [{ controller := "C2", handle := 0, handles := [0], okay := true }] := by decide
  have h1 := (stopped_joints_forced_idle exampleConfig [{ name := "C2", resources := ["A"] }]
    [{ name := "C", resources := ["A"] }, { name := "D", resources := ["B"] }]
    runningRobot 1 (by decide)).1
    ⟨{ name := "D", resources := ["B"] }, by decide, _, rfl, _, List.mem_cons_self _ _, rfl⟩
    (by
      intro ev hmem hh
      rw [hev, List.mem_singleton] at hmem
      rw [hmem] at hh
      cases hh)
  have h0 := (stopped_joints_forced_idle exampleConfig [{ name := "C2", resources := ["A"] }]
    [{ name := "C", resources := ["A"] }, { name := "D", resources := ["B"] }]
    runningRobot 0 (by decide)).2 []
    { controller := "C2", handle := 0, handles := [0], okay := true } [] hev rfl rfl
    (by intro e he; cases he)
  ⟨by decide, ⟨h1.1, by decide, h1.2.2.2⟩, ⟨h0.1, h0.2, by decide⟩⟩

/-! ### A restart under a name the table already holds -/

/-- C11 (the code at the failing input): controller C was started on joint B (handle 1)
and stopped, so the table holds the record of that start. C is now started on joint A
(handle 0) only. The validation passes and the requests built in this call are for
handle 0, but the insert keeps the entry of the earlier start: the table still lists
handle 1 for C, the switching pass leaves joint A idle without any actuator call and
switches joint B to profiled position, and doSwitch enables forwarding on joint B. -/
theorem restart_keeps_earlier_record :
    (restartRobot.switch_map_.lookup "C").map (fun to_switch => to_switch.map (fun d => d.handle))
        = some [1]
    ∧ (RobotLayer.collectSwitches exampleConfig restartRobot "C" Profiled_Position ["A"] []).map
        (fun to_switch => to_switch.map (fun d => d.handle)) = some [0]
    ∧ (RobotLayer.prepareSwitch exampleConfig [{ name := "C", resources := ["A"] }] []
        restartRobot).1 = true
    ∧ ((RobotLayer.prepareSwitch exampleConfig [{ name := "C", resources := ["A"] }] []
        restartRobot).2.switch_map_.lookup "C").map
        (fun to_switch => to_switch.map (fun d => d.handle)) = some [1]
    ∧ ((RobotLayer.prepareSwitch exampleConfig [{ name := "C", resources := ["A"] }] []
        restartRobot).2.heap 0).motor_.getMode = No_Mode
    ∧ ((RobotLayer.prepareSwitch exampleConfig [{ name := "C", resources := ["A"] }] []
        restartRobot).2.heap 0).motor_.calls = []
    ∧ (restartRobot.heap 1).motor_.getMode = No_Mode
    ∧ ((RobotLayer.prepareSwitch exampleConfig [{ name := "C", resources := ["A"] }] []
        restartRobot).2.heap 1).motor_.getMode = Profiled_Position
    ∧ ((RobotLayer.doSwitch [{ name := "C", resources := ["A"] }] []
        (RobotLayer.prepareSwitch exampleConfig [{ name := "C", resources := ["A"] }] []
          restartRobot).2).heap 1).forward_command_ = true
    ∧ ((RobotLayer.doSwitch [{ name := "C", resources := ["A"] }] []
        (RobotLayer.prepareSwitch exampleConfig [{ name := "C", resources := ["A"] }] []
          restartRobot).2).heap 0).forward_command_ = false := by
  decide

/-! ### switchMode towards a mode the actuator is not in -/

/-- C12: for a joint whose actuator is not in mode m. If the actuator rejects the entry
into m, switchMode(m) returns false, the actuator has received the entry request followed
by one halt, no command handle is selected and forwarding is disabled. If the actuator
accepts, it has received the entry request and no halt, it is in mode m, switchMode
returns true exactly when commands_ has an entry for m, that entry is then the selected
handle (no handle is selected without an entry), forwarding is disabled, and a following
forwardForMode(m) succeeds and enables it. -/
theorem switchMode_to_other_mode (h : HandleLayer) (m : OperationMode)
    (hm : h.motor_.getMode ≠ m) :
    (m ∈ h.motor_.rejected_modes →
        (h.switchMode m).1 = false
        ∧ (h.switchMode m).2.motor_.calls
            = h.motor_.calls ++ [MotorCall.enterModeAndWait m, MotorCall.halt]
        ∧ ((h.switchMode m).2.motor_.calls.drop h.motor_.calls.length).count MotorCall.halt = 1
        ∧ (h.switchMode m).2.jh_ = none
        ∧ (h.switchMode m).2.forward_command_ = false)
    ∧ (m ∉ h.motor_.rejected_modes →
        (h.switchMode m).2.motor_.calls = h.motor_.calls ++ [MotorCall.enterModeAndWait m]
        ∧ ((h.switchMode m).2.motor_.calls.drop h.motor_.calls.length).count MotorCall.halt = 0
        ∧ (h.switchMode m).2.motor_.getMode = m
        ∧ ((h.switchMode m).1 = true ↔ (h.commands_.lookup m).isSome = true)
        ∧ (∀ ch, h.commands_.lookup m = some ch → (h.switchMode m).2.jh_ = ch)
        ∧ (h.commands_.lookup m = none → (h.switchMode m).2.jh_ = none)
        ∧ (h.switchMode m).2.forward_command_ = false
        ∧ ((h.switchMode m).2.forwardForMode m).1 = true
        ∧ ((h.switchMode m).2.forwardForMode m).2.forward_command_ = true) := by
  constructor
  · intro hr
    have hcalls : (h.switchMode m).2.motor_.calls
        = h.motor_.calls ++ [MotorCall.enterModeAndWait m, MotorCall.halt] := by
      unfold HandleLayer.switchMode
      rw [if_pos hm]
      simp [MotorBase.enterModeAndWait, MotorBase.halt, hr]
    refine ⟨HandleLayer.switchMode_rejects h m hm hr, hcalls, ?_, ?_,
      HandleLayer.switchMode_forward_off h m hm⟩
    · rw [hcalls, List.drop_left]
      simp
    · unfold HandleLayer.switchMode
      rw [if_pos hm]
      simp [MotorBase.enterModeAndWait, hr]
  · intro ha
    have hcalls : (h.switchMode m).2.motor_.calls
        = h.motor_.calls ++ [MotorCall.enterModeAndWait m] := by
      unfold HandleLayer.switchMode
      rw [if_pos hm]
      simp only [MotorBase.enterModeAndWait, if_neg ha, Bool.not_true, Bool.false_eq_true,
        if_false]
      rw [(HandleLayer.select_fields _ _).1]
    have hmode : (h.switchMode m).2.motor_.getMode = m := by
      unfold HandleLayer.switchMode
      rw [if_pos hm]
      simp only [MotorBase.enterModeAndWait, if_neg ha, Bool.not_true, Bool.false_eq_true,
        if_false]
      rw [(HandleLayer.select_fields _ _).1]
      rfl
    refine ⟨hcalls, ?_, hmode, ?_, ?_, ?_, HandleLayer.switchMode_forward_off h m hm, ?_, ?_⟩
    · rw [hcalls, List.drop_left]
      simp
    · unfold HandleLayer.switchMode
      rw [if_pos hm]
      cases hl : h.commands_.lookup m <;>
        simp [MotorBase.enterModeAndWait, ha, HandleLayer.select, hl]
    · intro ch hl
      exact (HandleLayer.switchMode_enters h m ch (Or.inr ha) hl).2.2.1
    · intro hl
      unfold HandleLayer.switchMode
      rw [if_pos hm]
      simp [MotorBase.enterModeAndWait, ha, HandleLayer.select, hl]
    · simp [HandleLayer.forwardForMode, hmode]
    · simp [HandleLayer.forwardForMode, hmode]

/-- C12 at two concrete joints: a drive in profiled position that rejects the velocity
mode, and an idle drive that accepts profiled position, for which the position handle is
registered. -/
theorem switchMode_to_other_mode_witness :
    ((rejectingHandle.switchMode Velocity).1 = false
      ∧ (rejectingHandle.switchMode Velocity).2.motor_.calls
          = [MotorCall.enterModeAndWait Velocity, MotorCall.halt]
      ∧ (rejectingHandle.switchMode Velocity).2.jh_ = none
      ∧ (rejectingHandle.switchMode Velocity).2.forward_command_ = false)
    ∧ ((exampleHandle.switchMode Profiled_Position).1 = true
      ∧ (exampleHandle.switchMode Profiled_Position).2.motor_.calls
          = [MotorCall.enterModeAndWait Profiled_Position]
      ∧ (exampleHandle.switchMode Profiled_Position).2.jh_ = some JointHandle.jph_
      ∧ (exampleHandle.switchMode Profiled_Position).2.forward_command_ = false) :=
  have hr := (switchMode_to_other_mode rejectingHandle Velocity (by decide)).1 (by decide)
  have ha := (switchMode_to_other_mode exampleHandle Profiled_Position (by decide)).2
    (by decide)
  ⟨⟨hr.1, hr.2.1, hr.2.2.2.1, hr.2.2.2.2⟩,
   ⟨ha.2.2.2.1.mpr (by decide), ha.1, ha.2.2.2.2.1 _ (by decide), ha.2.2.2.2.2.2.1⟩⟩

/-! ### The cyclic write -/

/-- C13: handleWrite in one cycle. In a state other than Ready the joint is unchanged. In a
Ready cycle with forwarding disabled or no handle selected the actuator is untouched and
the three command cells are set to the measured position, velocity and effort. In a Ready
cycle with forwarding enabled and the position (velocity, effort) handle selected, the
actuator receives one target, the conversion of the position (velocity, effort) command;
that command cell is kept and the two other command cells are set to the measured
values. Hence the actuator receives a call only if the state is Ready, forwarding is
enabled and a handle is selected. The selection, the forwarding flag, the measured values
and the limits are never changed. -/
theorem handleWrite_cycle (conv : TargetConverters) (h : HandleLayer) (s : LayerState) :
    (s ≠ LayerState.Ready → HandleLayer.handleWrite conv h s = h)
    ∧ (s = LayerState.Ready → (h.forward_command_ = false ∨ h.jh_ = none) →
        (HandleLayer.handleWrite conv h s).motor_ = h.motor_
        ∧ (HandleLayer.handleWrite conv h s).cmd_pos_ = h.pos_
        ∧ (HandleLayer.handleWrite conv h s).cmd_vel_ = h.vel_
        ∧ (HandleLayer.handleWrite conv h s).cmd_eff_ = h.eff_)
    ∧ (s = LayerState.Ready → h.forward_command_ = true → h.jh_ = some JointHandle.jph_ →
        (HandleLayer.handleWrite conv h s).motor_
            = h.motor_.setTarget (conv.conv_target_pos_ h.cmd_pos_)
        ∧ (HandleLayer.handleWrite conv h s).motor_.calls
            = h.motor_.calls ++ [MotorCall.setTarget (conv.conv_target_pos_ h.cmd_pos_)]
        ∧ (HandleLayer.handleWrite conv h s).cmd_pos_ = h.cmd_pos_
        ∧ (HandleLayer.handleWrite conv h s).cmd_vel_ = h.vel_
        ∧ (HandleLayer.handleWrite conv h s).cmd_eff_ = h.eff_)
    ∧ (s = LayerState.Ready → h.forward_command_ = true → h.jh_ = some JointHandle.jvh_ →
        (HandleLayer.handleWrite conv h s).motor_
            = h.motor_.setTarget (conv.conv_target_vel_ h.cmd_vel_)
        ∧ (HandleLayer.handleWrite conv h s).motor_.calls
            = h.motor_.calls ++ [MotorCall.setTarget (conv.conv_target_vel_ h.cmd_vel_)]
        ∧ (HandleLayer.handleWrite conv h s).cmd_pos_ = h.pos_
        ∧ (HandleLayer.handleWrite conv h s).cmd_vel_ = h.cmd_vel_
        ∧ (HandleLayer.handleWrite conv h s).cmd_eff_ = h.eff_)
    ∧ (s = LayerState.Ready → h.forward_command_ = true → h.jh_ = some JointHandle.jeh_ →
        (HandleLayer.handleWrite conv h s).motor_
            = h.motor_.setTarget (conv.conv_target_eff_ h.cmd_eff_)
        ∧ (HandleLayer.handleWrite conv h s).motor_.calls
            = h.motor_.calls ++ [MotorCall.setTarget (conv.conv_target_eff_ h.cmd_eff_)]
        ∧ (HandleLayer.handleWrite conv h s).cmd_pos_ = h.pos_
        ∧ (HandleLayer.handleWrite conv h s).cmd_vel_ = h.vel_
        ∧ (HandleLayer.handleWrite conv h s).cmd_eff_ = h.cmd_eff_)
    ∧ ((HandleLayer.handleWrite conv h s).motor_ ≠ h.motor_ →
        s = LayerState.Ready ∧ h.forward_command_ = true ∧ h.jh_ ≠ none)
    ∧ ((HandleLayer.handleWrite conv h s).jh_ = h.jh_
        ∧ (HandleLayer.handleWrite conv h s).forward_command_ = h.forward_command_
        ∧ (HandleLayer.handleWrite conv h s).commands_ = h.commands_
        ∧ (HandleLayer.handleWrite conv h s).pos_ = h.pos_
        ∧ (HandleLayer.handleWrite conv h s).vel_ = h.vel_
        ∧ (HandleLayer.handleWrite conv h s).eff_ = h.eff_
        ∧ (HandleLayer.handleWrite conv h s).limits_ = h.limits_
        ∧ (HandleLayer.handleWrite conv h s).overlay_limits_ = h.overlay_limits_) := by
  by_cases hs : s = LayerState.Ready
  · cases hf : h.forward_command_ <;> rcases hj : h.jh_ with _ | jh
    · simp [HandleLayer.handleWrite, hs, hf, hj]
    · simp [HandleLayer.handleWrite, hs, hf, hj]
    · simp [HandleLayer.handleWrite, hs, hf, hj]
    · cases jh <;> simp [HandleLayer.handleWrite, hs, hf, hj, MotorBase.setTarget]
  · simp [HandleLayer.handleWrite, hs]

/-- C13 at a concrete joint: profiled position with the position handle forwarding,
measuring (1, 2, 3) and commanded (4, 5, 6); once in a Ready cycle, once in a Halt cycle. -/
theorem handleWrite_cycle_witness :
    ((HandleLayer.handleWrite exampleConverters forwardingHandle LayerState.Ready).motor_.calls
        = [MotorCall.setTarget 4000]
      ∧ (HandleLayer.handleWrite exampleConverters forwardingHandle LayerState.Ready).cmd_pos_ = 4
      ∧ (HandleLayer.handleWrite exampleConverters forwardingHandle LayerState.Ready).cmd_vel_ = 2
      ∧ (HandleLayer.handleWrite exampleConverters forwardingHandle LayerState.Ready).cmd_eff_ = 3)
    ∧ HandleLayer.handleWrite exampleConverters forwardingHandle LayerState.Halt
        = forwardingHandle :=
  have hr := (handleWrite_cycle exampleConverters forwardingHandle LayerState.Ready).2.2.1
    rfl (by decide) (by decide)
  ⟨⟨hr.2.1, hr.2.2.1, hr.2.2.2.1, hr.2.2.2.2⟩,
   (handleWrite_cycle exampleConverters forwardingHandle LayerState.Halt).1 (by decide)⟩

end canopen
